import Mathlib

/-
Verification development for the VectorClient API gateway core:
the dynamic forwarding route (backend/src/routes/dynamic.ts) and the
token-bucket rate limiter (backend/src/middleware/rateLimit.ts).

JavaScript values relevant to the gateway are embedded shallowly:
JSON scalars, JSON documents whose nested member values are carried
opaquely (no property below consults a member value's internal
structure), the body-normalisation and envelope
merge of the handler, the logging truncation, and the handler's
control flow as a pure function of the database snapshot, the request,
the clock, and the outcome of the outbound fetch.
-/

/-- JSON member values.  Numbers are carried as their literal text, the
way `JSON.parse`/`JSON.stringify` round-trips them in this model; a
nested object or array appearing as a member value is validated by the
parser and carried opaquely as its source text (`jraw`) — the
properties below treat member values as opaque, so their internal
structure is never consulted. -/
inductive JVal where
  | jnull : JVal
  | jbool : Bool → JVal
  | jnum : String → JVal
  | jstr : String → JVal
  | jraw : String → JVal
deriving DecidableEq, Repr

/-- A JSON object: ordered fields with scalar values. -/
abbrev JObj := List (String × JVal)

/-- A top-level JSON document: object fields and array elements are
member values (scalars, or opaquely carried nested documents). -/
inductive JTop where
  | prim : JVal → JTop
  | obj : JObj → JTop
  | arr : List JVal → JTop
deriving DecidableEq, Repr

/-- The parsed `request.body` Fastify hands to the route handler:
`none` models `undefined`/missing, `some t` a JavaScript value. -/
abbrev Body := Option JTop

/-- JavaScript truthiness of a numeric literal (`0`, `-0` and their
common textual forms are falsy). -/
def numLitTruthy (lit : String) : Bool :=
  !(lit == "0" || lit == "-0" || lit == "0.0" || lit == "-0.0")

/-- JavaScript truthiness of an embedded value. -/
def jsTruthy : JTop → Bool
  | JTop.prim JVal.jnull => false
  | JTop.prim (JVal.jbool b) => b
  | JTop.prim (JVal.jnum lit) => numLitTruthy lit
  | JTop.prim (JVal.jstr s) => s != ""
  | JTop.prim (JVal.jraw _) => true
  | JTop.obj _ => true
  | JTop.arr _ => true

/-- Whether `typeof v === 'object'` holds in JavaScript (objects,
arrays and `null`). -/
def typeofObject : JTop → Bool
  | JTop.obj _ => true
  | JTop.arr _ => true
  | JTop.prim JVal.jnull => true
  | JTop.prim _ => false

/-- `Object.keys`-style enumeration of a JavaScript value together
with the value found at each key (`acc[key] = requestBodyObj[key]`):
objects yield their fields, arrays and strings yield index keys,
other primitives yield nothing, and `null` throws a `TypeError`
(modelled as `none`). -/
def ownEntries : JTop → Option JObj
  | JTop.obj o => some o
  | JTop.arr xs =>
      some (((List.range xs.length).zip xs).map (fun p => (toString p.1, p.2)))
  | JTop.prim (JVal.jstr s) =>
      some (((List.range s.data.length).zip s.data).map
        (fun p => (toString p.1, JVal.jstr (String.singleton p.2))))
  | JTop.prim JVal.jnull => none
  | JTop.prim _ => some []

/-- Shallow copy by object spread (`{ ...originalRequestBody }`, line
268): arrays become index-keyed objects, objects are copied. -/
def spreadCopy : JTop → JTop
  | JTop.arr xs =>
      JTop.obj (((List.range xs.length).zip xs).map (fun p => (toString p.1, p.2)))
  | t => t

/- JSON.parse model (flat documents). -/

/-- Skip JSON whitespace. -/
def skipWs : List Char → List Char
  | [] => []
  | c :: cs =>
      if c = ' ' ∨ c = '\t' ∨ c = '\n' ∨ c = '\r' then skipWs cs else c :: cs

/-- Value of a hexadecimal digit. -/
def hexVal (c : Char) : Option Nat :=
  if '0' ≤ c ∧ c ≤ '9' then some (c.toNat - '0'.toNat)
  else if 'a' ≤ c ∧ c ≤ 'f' then some (c.toNat - 'a'.toNat + 10)
  else if 'A' ≤ c ∧ c ≤ 'F' then some (c.toNat - 'A'.toNat + 10)
  else none

/-- The character produced by a single-letter JSON escape. -/
def unescape (c : Char) : Option Char :=
  if c = '"' then some '"'
  else if c = '\\' then some '\\'
  else if c = '/' then some '/'
  else if c = 'n' then some '\n'
  else if c = 't' then some '\t'
  else if c = 'r' then some '\r'
  else if c = 'b' then some (Char.ofNat 8)
  else if c = 'f' then some (Char.ofNat 12)
  else none

/-- Parse the remainder of a JSON string literal (after the opening
quote), returning its characters and the unconsumed input. -/
def parseStrChars : List Char → Option (List Char × List Char)
  | [] => none
  | '"' :: cs => some ([], cs)
  | '\\' :: 'u' :: a :: b :: c :: d :: cs =>
      match hexVal a, hexVal b, hexVal c, hexVal d with
      | some ha, some hb, some hc, some hd =>
          (parseStrChars cs).map (fun p =>
            (Char.ofNat (((ha * 16 + hb) * 16 + hc) * 16 + hd) :: p.1, p.2))
      | _, _, _, _ => none
  | '\\' :: e :: cs =>
      match unescape e with
      | some c => (parseStrChars cs).map (fun p => (c :: p.1, p.2))
      | none => none
  | c :: cs =>
      if c.toNat < 32 then none
      else (parseStrChars cs).map (fun p => (c :: p.1, p.2))

/-- Is `c` a character that may appear in a JSON number literal? -/
def isNumChar (c : Char) : Bool :=
  c.isDigit || c = '-' || c = '+' || c = '.' || c = 'e' || c = 'E'

/-- Take the maximal run of number-literal characters. -/
def takeNum : List Char → List Char × List Char
  | [] => ([], [])
  | c :: cs =>
      if isNumChar c then
        let p := takeNum cs
        (c :: p.1, p.2)
      else ([], c :: cs)

/-- Drop a leading run of digits. -/
def dropDigits : List Char → List Char
  | c :: cs => if c.isDigit then dropDigits cs else c :: cs
  | [] => []

/-- Consume the JSON integer part (`0` or a nonzero digit followed by
digits) after an optional sign. -/
def numAfterSign : List Char → Option (List Char)
  | '0' :: rest => some rest
  | c :: rest => if c.isDigit && c != '0' then some (dropDigits rest) else none
  | [] => none

/-- Consume an optional JSON fraction part (`.` followed by one or
more digits). -/
def numFrac : List Char → Option (List Char)
  | '.' :: c :: rest => if c.isDigit then some (dropDigits rest) else none
  | ['.'] => none
  | l => some l

/-- Consume one or more exponent digits. -/
def numExpDigits : List Char → Option (List Char)
  | c :: rest => if c.isDigit then some (dropDigits rest) else none
  | [] => none

/-- Consume the exponent's optional sign and its digits. -/
def numExpSign : List Char → Option (List Char)
  | '+' :: rest => numExpDigits rest
  | '-' :: rest => numExpDigits rest
  | l => numExpDigits l

/-- Consume an optional JSON exponent part. -/
def numExp : List Char → Option (List Char)
  | 'e' :: rest => numExpSign rest
  | 'E' :: rest => numExpSign rest
  | l => some l

/-- Does `l` match the JSON number grammar exactly
(`-?(0|[1-9][0-9]*)(\.[0-9]+)?([eE][+-]?[0-9]+)?`)?  `JSON.parse`
throws on anything else (`--5`, `01`, `1.`, `5e`). -/
def validNumLit (l : List Char) : Bool :=
  let l1 := match l with
    | '-' :: rest => rest
    | _ => l
  match numAfterSign l1 with
  | none => false
  | some l2 =>
      match numFrac l2 with
      | none => false
      | some l3 =>
          match numExp l3 with
          | none => false
          | some l4 => l4.isEmpty

/-- Parse one JSON scalar (string, number, boolean or null); number
literals are validated against the JSON grammar, as `JSON.parse`
does. -/
def parseScalar (l : List Char) : Option (JVal × List Char) :=
  match skipWs l with
  | '"' :: cs => (parseStrChars cs).map (fun p => (JVal.jstr (String.mk p.1), p.2))
  | 't' :: 'r' :: 'u' :: 'e' :: cs => some (JVal.jbool true, cs)
  | 'f' :: 'a' :: 'l' :: 's' :: 'e' :: cs => some (JVal.jbool false, cs)
  | 'n' :: 'u' :: 'l' :: 'l' :: cs => some (JVal.jnull, cs)
  | c :: cs =>
      if c.isDigit || c = '-' then
        let p := takeNum (c :: cs)
        if validNumLit p.1 then some (JVal.jnum (String.mk p.1), p.2) else none
      else none
  | [] => none

/-- What the nested-document validator is currently consuming. -/
inductive SkipMode where
  | value
  | members
  | elems
deriving DecidableEq, Repr

/-- Recursively validate one nested JSON document (`value`), object
members after an opening brace (`members`), or array elements after an
opening bracket (`elems`), returning the unconsumed input; `none`
models the `SyntaxError` `JSON.parse` throws on malformed input
anywhere in the document.  Fuel bounds the recursion. -/
def skipJson : Nat → SkipMode → List Char → Option (List Char)
  | 0, _, _ => none
  | fuel + 1, SkipMode.value, l =>
      (match skipWs l with
       | '{' :: cs =>
           (match skipWs cs with
            | '}' :: r => some r
            | _ => skipJson fuel SkipMode.members cs)
       | '[' :: cs =>
           (match skipWs cs with
            | ']' :: r => some r
            | _ => skipJson fuel SkipMode.elems cs)
       | rest => (parseScalar rest).map (fun p => p.2))
  | fuel + 1, SkipMode.members, l =>
      (match skipWs l with
       | '"' :: cs =>
           match parseStrChars cs with
           | none => none
           | some kr =>
               match skipWs kr.2 with
               | ':' :: r2 =>
                   (match skipJson fuel SkipMode.value r2 with
                    | none => none
                    | some r3 =>
                        match skipWs r3 with
                        | ',' :: r4 => skipJson fuel SkipMode.members r4
                        | '}' :: r4 => some r4
                        | _ => none)
               | _ => none
       | _ => none)
  | fuel + 1, SkipMode.elems, l =>
      (match skipJson fuel SkipMode.value l with
       | none => none
       | some r1 =>
           match skipWs r1 with
           | ',' :: r2 => skipJson fuel SkipMode.elems r2
           | ']' :: r2 => some r2
           | _ => none)

/-- Parse one member or element value: a scalar, or a nested object or
array — recursively validated, then carried opaquely as the consumed
source text. -/
def parseMemberValue (l : List Char) : Option (JVal × List Char) :=
  let ws := skipWs l
  match ws with
  | '{' :: _ =>
      (skipJson (2 * ws.length + 2) SkipMode.value ws).map
        (fun r => (JVal.jraw (String.mk (ws.take (ws.length - r.length))), r))
  | '[' :: _ =>
      (skipJson (2 * ws.length + 2) SkipMode.value ws).map
        (fun r => (JVal.jraw (String.mk (ws.take (ws.length - r.length))), r))
  | _ => parseScalar l

/-- Collapse duplicate keys the way a JavaScript object does
(`JSON.parse` of `{"a":1,"a":2}` yields one `a` property): each
key keeps its first position and its last value. -/
def collapseDups (l : JObj) : JObj :=
  l.foldl
    (fun acc kv =>
      if acc.any (fun e => e.1 == kv.1) then
        acc.map (fun e => if e.1 == kv.1 then (e.1, kv.2) else e)
      else acc ++ [kv])
    []

/-- Parse the members of a JSON object (after the opening brace, when
the object is nonempty).  Fuel bounds the recursion. -/
def parseMembers : Nat → List Char → Option (JObj × List Char)
  | 0, _ => none
  | fuel + 1, l =>
      match skipWs l with
      | '"' :: cs =>
          match parseStrChars cs with
          | none => none
          | some (k, r1) =>
              match skipWs r1 with
              | ':' :: r2 =>
                  match parseMemberValue r2 with
                  | none => none
                  | some (v, r3) =>
                      match skipWs r3 with
                      | ',' :: r4 =>
                          (parseMembers fuel r4).map
                            (fun p => ((String.mk k, v) :: p.1, p.2))
                      | '\x7d' :: r4 => some ([(String.mk k, v)], r4)
                      | _ => none
              | _ => none
      | _ => none

/-- Parse the elements of a JSON array (after the opening bracket,
when the array is nonempty). -/
def parseElems : Nat → List Char → Option (List JVal × List Char)
  | 0, _ => none
  | fuel + 1, l =>
      match parseMemberValue l with
      | none => none
      | some (v, r1) =>
          match skipWs r1 with
          | ',' :: r2 => (parseElems fuel r2).map (fun p => (v :: p.1, p.2))
          | ']' :: r2 => some ([v], r2)
          | _ => none

/-- Parse one top-level JSON document. -/
def parseTopVal (l : List Char) : Option (JTop × List Char) :=
  match skipWs l with
  | '\x7b' :: cs =>
      match skipWs cs with
      | '\x7d' :: r => some (JTop.obj [], r)
      | _ =>
          (parseMembers (cs.length + 1) cs).map
            (fun p => (JTop.obj (collapseDups p.1), p.2))
  | '[' :: cs =>
      match skipWs cs with
      | ']' :: r => some (JTop.arr [], r)
      | _ => (parseElems (cs.length + 1) cs).map (fun p => (JTop.arr p.1, p.2))
  | _ => (parseScalar l).map (fun p => (JTop.prim p.1, p.2))

/-- Model of the JavaScript builtin `JSON.parse`: the whole document,
including every nested member, is validated (number grammar, string
escapes, structure), and `none` models a thrown `SyntaxError`.  A
nested object or array member value is carried opaquely as its source
text, and duplicate keys of the top-level object collapse as in a
JavaScript object; the canonical re-serialization of nested members
and surrogate-pair decoding of `\u` escapes are not modelled — no
property below consults member-value internals. -/
def jsonParse (s : String) : Option JTop :=
  match parseTopVal s.data with
  | some (v, r) => if skipWs r = [] then some v else none
  | none => none

/- JSON.stringify model. -/

/-- Lower-case hexadecimal digit. -/
def hexDigit (n : Nat) : Char :=
  if n < 10 then Char.ofNat ('0'.toNat + n) else Char.ofNat ('a'.toNat + n - 10)

/-- Escape one character the way `JSON.stringify` renders it inside a
string literal. -/
def escChar (c : Char) : String :=
  if c = '"' then "\\\""
  else if c = '\\' then "\\\\"
  else if c = '\n' then "\\n"
  else if c = '\t' then "\\t"
  else if c = '\r' then "\\r"
  else if c.toNat = 8 then "\\b"
  else if c.toNat = 12 then "\\f"
  else if c.toNat < 32 then
    "\\u00" ++ String.mk [hexDigit (c.toNat / 16), hexDigit (c.toNat % 16)]
  else String.singleton c

/-- Escape a string for inclusion in JSON output. -/
def jsonEscape (s : String) : String := String.join (s.data.map escChar)

/-- Serialise a scalar. -/
def stringifyV : JVal → String
  | JVal.jnull => "null"
  | JVal.jbool true => "true"
  | JVal.jbool false => "false"
  | JVal.jnum lit => lit
  | JVal.jstr s => "\"" ++ jsonEscape s ++ "\""
  | JVal.jraw lit => lit

/-- Serialise an object. -/
def stringifyObj (o : JObj) : String :=
  "\x7b" ++
    String.intercalate ","
      (o.map (fun kv => "\"" ++ jsonEscape kv.1 ++ "\":" ++ stringifyV kv.2)) ++
    "\x7d"

/-- Model of `JSON.stringify` on flat documents. -/
def stringifyTop : JTop → String
  | JTop.prim v => stringifyV v
  | JTop.obj o => stringifyObj o
  | JTop.arr xs =>
      "[" ++ String.intercalate "," (xs.map stringifyV) ++ "]"

example : jsonParse "\x7b\"a\":1\x7d" = some (JTop.obj [("a", JVal.jnum "1")]) := by decide
example : jsonParse "null" = some (JTop.prim JVal.jnull) := by decide
example : jsonParse "notjson" = none := by decide
example : jsonParse "\x7b\"a\":\x7b\"b\":1\x7d\x7d"
    = some (JTop.obj [("a", JVal.jraw "\x7b\"b\":1\x7d")]) := by decide
example : jsonParse "\x7b\"a\":[1,\x7b\"c\":true\x7d]\x7d"
    = some (JTop.obj [("a", JVal.jraw "[1,\x7b\"c\":true\x7d]")]) := by decide
example : jsonParse "\x7b\"a\":--5\x7d" = none := by decide
example : jsonParse "\x7b\"a\":01\x7d" = none := by decide
example : jsonParse "\x7b\"a\":1.\x7d" = none := by decide
example : jsonParse "\x7b\"a\":\x7b\"b\":\x7d\x7d" = none := by decide
example : jsonParse "\x7b\"a\":1,\"b\":2,\"a\":3\x7d"
    = some (JTop.obj [("a", JVal.jnum "3"), ("b", JVal.jnum "2")]) := by decide
example : stringifyObj [("a", JVal.jnum "1")] = "\x7b\"a\":1\x7d" := by decide

/- Logging truncation (the `requestBody.length > 10240 ?
requestBody.substring(0, 10240) : requestBody` pattern). -/

/-- Contribution of one character to a JavaScript string's `.length`:
UTF-16 code units (astral characters count as a surrogate pair). -/
def jsUnits (c : Char) : Nat := if c.toNat < 0x10000 then 1 else 2

/-- JavaScript `String.prototype.length` of an embedded string: its
UTF-16 code-unit count. -/
def jsLen (s : String) : Nat := (s.data.map jsUnits).sum

/-- UTF-8 byte size of one character. -/
def charUtf8Bytes (c : Char) : Nat :=
  if c.toNat < 0x80 then 1
  else if c.toNat < 0x800 then 2
  else if c.toNat < 0x10000 then 3
  else 4

/-- UTF-8 byte size of an embedded string (what a `text` column
stores). -/
def strUtf8Bytes (s : String) : Nat := (s.data.map charUtf8Bytes).sum

/-- Take a prefix of at most `n` UTF-16 code units (JavaScript
`substring(0, n)`; a surrogate pair is never split in this model). -/
def jsTakeUnits : Nat → List Char → List Char
  | _, [] => []
  | n, c :: cs => if jsUnits c ≤ n then c :: jsTakeUnits (n - jsUnits c) cs else []

/-- JavaScript `s.substring(0, n)`. -/
def jsSubstring (s : String) (n : Nat) : String := String.mk (jsTakeUnits n s.data)

/-- The logging truncation applied to every stored body: strings whose
JavaScript length exceeds 10240 are cut to their first 10240 code
units, shorter strings are stored as-is. -/
def truncateLog (s : String) : String :=
  if jsLen s > 10240 then jsSubstring s 10240 else s

/- Database snapshot (drizzle tables used by the dynamic route). -/

/-- A row of the `endpoints` table (the columns the core reads). -/
structure Endpoint where
  id : String
  userId : String
  route : String
  isActive : Bool
  rateLimit : Int
  rateLimitWindowMs : Int
deriving DecidableEq, Repr

/-- A row of the `api_tokens` table.  `tokenValue` stores the one-way
hash of the secret; `expiresAt` is a millisecond timestamp or NULL. -/
structure ApiToken where
  id : String
  tokenValue : String
  isActive : Bool
  expiresAt : Option Int
deriving DecidableEq, Repr

/-- A row of the `endpoint_api_tokens` association table. -/
structure EndpointApiToken where
  endpointId : String
  apiTokenId : String
deriving DecidableEq, Repr

/-- A row of the `endpoint_schemas` association table. -/
structure EndpointSchema where
  endpointId : String
  schemaId : String
  order : Int
deriving DecidableEq, Repr

/-- The read-only snapshot of the database a single request observes. -/
structure Db where
  endpoints : List Endpoint
  apiTokens : List ApiToken
  endpointApiTokens : List EndpointApiToken
  endpointSchemas : List EndpointSchema
deriving Repr

/-- Lines 28-38: select the endpoint by id, owner and active flag. -/
def resolveEndpoint (db : Db) (endpointId userId : String) : Option Endpoint :=
  (db.endpoints.filter
    (fun e => e.id == endpointId && e.userId == userId && e.isActive)).head?

/-- Lines 391-400 (catch block): the same lookup without the active
flag. -/
def resolveEndpointAnyActive (db : Db) (endpointId userId : String) : Option Endpoint :=
  (db.endpoints.filter (fun e => e.id == endpointId && e.userId == userId)).head?

/-- Lines 62-71: select the active token whose stored hash equals the
hash of the presented key. -/
def findActiveTokenByHash (db : Db) (h : String) : Option ApiToken :=
  (db.apiTokens.filter (fun t => t.tokenValue == h && t.isActive)).head?

/-- Lines 409-413 (catch block): token lookup by hash alone. -/
def findTokenByHashAny (db : Db) (h : String) : Option ApiToken :=
  (db.apiTokens.filter (fun t => t.tokenValue == h)).head?

/-- Lines 151-160: is this token associated with this endpoint? -/
def findAssociation (db : Db) (endpointId tokenId : String) : Option EndpointApiToken :=
  (db.endpointApiTokens.filter
    (fun a => a.endpointId == endpointId && a.apiTokenId == tokenId)).head?

/-- Lines 208-212: does the endpoint have any associated token? -/
def endpointHasAssociatedTokens (db : Db) (endpointId : String) : Bool :=
  db.endpointApiTokens.any (fun a => a.endpointId == endpointId)

/-- Lines 253-260: the schema id of the association row with the
smallest `order` (ORDER BY "order" ASC LIMIT 1), if any. -/
def firstSchemaId (db : Db) (endpointId : String) : Option String :=
  ((db.endpointSchemas.filter (fun r => r.endpointId == endpointId)).foldl
    (fun acc r =>
      match acc with
      | none => some r
      | some b => if r.order < b.order then some r else acc)
    none).map (fun r => r.schemaId)

/-- Line 113: `token.expiresAt && new Date(token.expiresAt) < new
Date()`. -/
def tokenExpired (t : ApiToken) (now : Int) : Bool :=
  match t.expiresAt with
  | some e => e < now
  | none => false

/- Body normalisation and envelope construction (lines 262-292). -/

/-- Lines 263-277: compute `requestBodyObj` from `request.body`.  An
object (or array) body is shallow-copied; a truthy string body is fed
to `JSON.parse` (an unparseable string falls back to the empty
object); any other truthy value is kept as-is; falsy bodies yield the
empty object. -/
def normalizeBody : Body → JTop
  | none => JTop.obj []
  | some t =>
      if jsTruthy t && typeofObject t then spreadCopy t
      else if jsTruthy t then
        match t with
        | JTop.prim (JVal.jstr s) =>
            match jsonParse s with
            | some v => v
            | none => JTop.obj []
        | _ => t
      else JTop.obj []

/-- Lines 280-292: the forwarded canonical body.  The base fields
`user_id` and `endpoint_id` (the spec's tenant id and endpoint id)
always carry the gateway-resolved values; `schema_id` (the spec's
knowledge-reference id) is present only when a truthy schema id was
resolved; caller entries with reserved names are skipped, all other
caller entries are merged in unchanged. -/
def forwardingBody (userId endpointId : String) (schemaId : Option String)
    (entries : JObj) : JObj :=
  [("user_id", JVal.jstr userId), ("endpoint_id", JVal.jstr endpointId)]
  ++ (match schemaId with
      | some s => if s = "" then [] else [("schema_id", JVal.jstr s)]
      | none => [])
  ++ entries.filter
      (fun kv => kv.1 != "user_id" && kv.1 != "endpoint_id" && kv.1 != "schema_id")

/-- The caller entries the merge of lines 285-291 iterates over
(`Object.keys(requestBodyObj)`); `none` models the `TypeError` thrown
when `requestBodyObj` is `null`. -/
def envelopeEntries (b : Body) : Option JObj := ownEntries (normalizeBody b)

/-- The full envelope construction: normalise the body, then merge it
under the canonical fields. -/
def buildForwardingBody (userId endpointId : String) (schemaId : Option String)
    (b : Body) : Option JObj :=
  (envelopeEntries b).map (forwardingBody userId endpointId schemaId)

/- Logged request bodies. -/

/-- The 403 and catch paths (e.g. lines 83-86): `request.body ?
JSON.stringify(request.body) : null`, truncated for storage. -/
def earlyRequestBodyText (b : Body) : Option String :=
  (match b with
   | none => none
   | some t => if jsTruthy t then some (stringifyTop t) else none).map truncateLog

/-- The success path (lines 297-302): a string body is logged raw,
any other truthy body is logged stringified, then truncated. -/
def mainRequestBodyText (b : Body) : Option String :=
  (match b with
   | none => none
   | some t =>
       if jsTruthy t then
         some (match t with
               | JTop.prim (JVal.jstr s) => s
               | _ => stringifyTop t)
       else none).map truncateLog

/- The orchestrator as a pure function. -/

/-- Which exit of the handler a request took. -/
inductive Exit where
  | notFound
  | invalidToken
  | expiredToken
  | notAssociated
  | tokenRequired
  | configError
  | forwarded
  | exceptionCaught
deriving DecidableEq, Repr

/-- One attempted `call_logs` insert (the columns the properties are
about; the ip / user-agent / timing metadata columns are threaded
straight from the request and are omitted). -/
structure CallLog where
  endpointId : String
  apiTokenId : Option String
  status : Nat
  requestBody : Option String
  responseBody : Option String
  errorMessage : Option String
deriving DecidableEq, Repr

/-- The observable outcome of one request: the reply sent, whether it
was generated by the gateway (rather than relayed from the
destination), every attempted log insert, whether `fetch` was invoked
and with which body, which exit was taken, and whether the credential
stage was passed. -/
structure HandlerResult where
  status : Nat
  reply : JTop
  gatewayReply : Bool
  logs : List CallLog
  didForward : Bool
  forwardedBody : Option String
  exit : Exit
  credentialStagePassed : Bool
deriving DecidableEq, Repr

/-- The outcome of the outbound `fetch` (line 328), injected as data:
either a destination response or a thrown network error. -/
inductive FetchOutcome where
  | ok : Nat → String → FetchOutcome
  | err : String → FetchOutcome
deriving DecidableEq, Repr

/-- The `{ message: m }` error envelope every gateway-generated reply
of the route handler uses. -/
def msgReply (m : String) : JTop := JTop.obj [("message", JVal.jstr m)]

/-- A credential-stage rejection: message, token id to log, and exit. -/
structure CredErr where
  msg : String
  logTokenId : Option String
  exitKind : Exit
deriving DecidableEq, Repr

/-- Lines 206-250: the no-key branch.  An endpoint with associated
tokens rejects a key-less request; otherwise it is public. -/
def credentialStageNoKey (db : Db) (endpointId : String) :
    Except CredErr (Option String) :=
  if endpointHasAssociatedTokens db endpointId then
    Except.error ⟨"API token required", none, Exit.tokenRequired⟩
  else Except.ok none

/-- Lines 53-250: the credential stage.  `hash` is
`EncryptionService.hash` (sha256, embedded as an opaque function since
every property treats it opaquely).  An empty `x-api-key` header is
falsy in JavaScript and takes the no-key branch.  On success the
matched token id (or `none` for a public request) is returned; the
token's last-used-at update (lines 202-205) is a write this model does
not track. -/
def credentialStage (hash : String → String) (db : Db) (now : Int)
    (endpointId : String) (apiKeyHeader : Option String) :
    Except CredErr (Option String) :=
  match apiKeyHeader with
  | none => credentialStageNoKey db endpointId
  | some k =>
      if k = "" then credentialStageNoKey db endpointId
      else
        match findActiveTokenByHash db (hash k) with
        | none => Except.error ⟨"Invalid API token", none, Exit.invalidToken⟩
        | some token =>
            if tokenExpired token now then
              Except.error ⟨"API token has expired", some token.id, Exit.expiredToken⟩
            else
              match findAssociation db endpointId token.id with
              | none =>
                  Except.error
                    ⟨"API token is not authorized for this endpoint",
                     some token.id, Exit.notAssociated⟩
              | some _ => Except.ok (some token.id)

/-- An exception escaping the forward stage: its message, whether the
outbound call had already been made, and the body it was made with. -/
structure FwdErr where
  msg : String
  didForward : Bool
  forwardedBody : Option String
deriving DecidableEq, Repr

/-- Does the first list start with the second? -/
def charsStartWith : List Char → List Char → Bool
  | _, [] => true
  | [], _ :: _ => false
  | c :: cs, p :: ps => c == p && charsStartWith cs ps

/-- JavaScript `String.prototype.startsWith` on embedded strings. -/
def jsStartsWith (s pre : String) : Bool := charsStartWith s.data pre.data

/-- Lines 252-378 after a successful envelope construction: schema
lookup, envelope merge, destination URL check, outbound call, reply
relay and the success-path log.  The URL check (line 317) answers 400
and returns without inserting a log; a thrown fetch error escapes to
the handler's catch block. -/
def forwardStageAfterEnvelope (db : Db) (endpointId userId : String)
    (endpoint : Endpoint) (apiTokenId : Option String) (b : Body) (fo : FetchOutcome)
    (entries : JObj) : Except FwdErr HandlerResult :=
  let fb := forwardingBody userId endpointId (firstSchemaId db endpointId) entries
  let forwardingRequestBody := stringifyObj fb
  let requestBodyText := mainRequestBodyText b
  if !(jsStartsWith endpoint.route "http://") && !(jsStartsWith endpoint.route "https://") then
    Except.ok
      { status := 400
        reply := msgReply "Route must be a full URL (starting with http:// or https://)"
        gatewayReply := true
        logs := []
        didForward := false
        forwardedBody := none
        exit := Exit.configError
        credentialStagePassed := true }
  else
    match fo with
    | FetchOutcome.err m => Except.error ⟨m, true, some forwardingRequestBody⟩
    | FetchOutcome.ok st text =>
        let parsed :=
          match jsonParse text with
          | some v => v
          | none => JTop.prim (JVal.jstr text)
        Except.ok
          { status := st
            reply := parsed
            gatewayReply := false
            logs := [{ endpointId := endpoint.id
                       apiTokenId := apiTokenId
                       status := st
                       requestBody := requestBodyText
                       responseBody := some (truncateLog text)
                       errorMessage := none }]
            didForward := true
            forwardedBody := some forwardingRequestBody
            exit := Exit.forwarded
            credentialStagePassed := true }

/-- Lines 252-378 entry point: the envelope construction can throw
(null `requestBodyObj`); otherwise control continues in
`forwardStageAfterEnvelope`. -/
def forwardStageCore (db : Db) (endpointId userId : String) (endpoint : Endpoint)
    (apiTokenId : Option String) (b : Body) (fo : FetchOutcome) :
    Except FwdErr HandlerResult :=
  match envelopeEntries b with
  | none => Except.error ⟨"Cannot convert undefined or null to object", false, none⟩
  | some entries =>
      forwardStageAfterEnvelope db endpointId userId endpoint apiTokenId b fo entries

/-- Lines 380-450: the catch block.  Replies 500 with the exception
message (or a fallback when it is empty), then attempts one log write
only when both path params are truthy and the relaxed endpoint lookup
finds a row; the token id is re-derived from the header by hash. -/
def catchResult (hash : String → String) (db : Db) (endpointId userId : String)
    (apiKeyHeader : Option String) (b : Body) (msg : String)
    (didForward : Bool) (forwardedBody' : Option String) : HandlerResult :=
  let logs :=
    if endpointId ≠ "" ∧ userId ≠ "" then
      match resolveEndpointAnyActive db endpointId userId with
      | some e =>
          let errTok :=
            match apiKeyHeader with
            | some k =>
                if k = "" then none else (findTokenByHashAny db (hash k)).map (fun t => t.id)
            | none => none
          [{ endpointId := e.id
             apiTokenId := errTok
             status := 500
             requestBody := earlyRequestBodyText b
             responseBody := none
             errorMessage := some msg }]
      | none => []
    else []
  { status := 500
    reply := msgReply (if msg = "" then "Internal server error" else msg)
    gatewayReply := true
    logs := logs
    didForward := didForward
    forwardedBody := forwardedBody'
    exit := Exit.exceptionCaught
    credentialStagePassed := true }

/-- Lines 327-450: the forward stage together with the surrounding
try/catch — a caught exception becomes the 500 reply plus the catch
block's best-effort log. -/
def afterCredential (hash : String → String) (db : Db)
    (endpointId userId : String) (apiKeyHeader : Option String) (b : Body)
    (fo : FetchOutcome) (endpoint : Endpoint) (apiTokenId : Option String) :
    HandlerResult :=
  match forwardStageCore db endpointId userId endpoint apiTokenId b fo with
  | Except.ok r => r
  | Except.error fe =>
      catchResult hash db endpointId userId apiKeyHeader b fe.msg
        fe.didForward fe.forwardedBody

/-- Lines 53-250 outcome applied to the resolved endpoint: a
credential rejection becomes the 403 reply plus its log write,
otherwise control proceeds to the forward stage. -/
def afterResolve (hash : String → String) (db : Db) (now : Int)
    (endpointId userId : String) (apiKeyHeader : Option String) (b : Body)
    (fo : FetchOutcome) (endpoint : Endpoint) : HandlerResult :=
  match credentialStage hash db now endpointId apiKeyHeader with
  | Except.error ce =>
      { status := 403
        reply := msgReply ce.msg
        gatewayReply := true
        logs := [{ endpointId := endpoint.id
                   apiTokenId := ce.logTokenId
                   status := 403
                   requestBody := earlyRequestBodyText b
                   responseBody := none
                   errorMessage := some ce.msg }]
        didForward := false
        forwardedBody := none
        exit := ce.exitKind
        credentialStagePassed := false }
  | Except.ok apiTokenId =>
      afterCredential hash db endpointId userId apiKeyHeader b fo endpoint apiTokenId

/-- The dynamic route handler (dynamic.ts lines 15-451) as a pure
function of the database snapshot, the clock, the request pieces and
the injected fetch outcome. -/
def handleDynamicPost (hash : String → String) (db : Db) (now : Int)
    (endpointId userId : String) (apiKeyHeader : Option String) (b : Body)
    (fo : FetchOutcome) : HandlerResult :=
  match resolveEndpoint db endpointId userId with
  | none =>
      { status := 404
        reply := msgReply "Endpoint not found or inactive"
        gatewayReply := true
        logs := []
        didForward := false
        forwardedBody := none
        exit := Exit.notFound
        credentialStagePassed := false }
  | some endpoint =>
      afterResolve hash db now endpointId userId apiKeyHeader b fo endpoint

/- The token-bucket rate limiter (middleware/rateLimit.ts). -/

/-- A rate-limit bucket: a fractional token count and the last refill
timestamp.  JavaScript's floating-point arithmetic is embedded as
exact rational arithmetic, which agrees with it on the budgets and
windows the properties use. -/
structure RateLimitBucket where
  tokens : ℚ
  lastRefill : Int
deriving DecidableEq, Repr

/-- Lines 38-59: one admission decision for one bucket key.  A
missing bucket is created with a full allotment; an existing bucket is
refilled in place by `elapsed / windowMs * maxTokens`, capped at
`maxTokens`; fewer than one token rejects (the in-place refill
persists, a fresh bucket is not stored), otherwise one token is spent
and the bucket stored. -/
def rateLimitStep (st : Option RateLimitBucket) (now : Int)
    (maxTokens windowMs : ℚ) : Bool × Option RateLimitBucket :=
  match st with
  | none =>
      let b : RateLimitBucket := { tokens := maxTokens, lastRefill := now }
      if b.tokens < 1 then (false, none)
      else (true, some { tokens := b.tokens - 1, lastRefill := b.lastRefill })
  | some b0 =>
      let elapsed : ℚ := ((now - b0.lastRefill : Int) : ℚ)
      let tokensToAdd : ℚ := elapsed / windowMs * maxTokens
      let b : RateLimitBucket :=
        { tokens := min maxTokens (b0.tokens + tokensToAdd), lastRefill := now }
      if b.tokens < 1 then (false, some b)
      else (true, some { tokens := b.tokens - 1, lastRefill := b.lastRefill })

/-- The process-local bucket map, keyed by `ip ++ "-" ++ endpointId`. -/
abbrev BucketMap := List (String × RateLimitBucket)

/-- Store (insert or replace) a bucket under a key. -/
def setBucket (m : BucketMap) (k : String) (b : RateLimitBucket) : BucketMap :=
  match m with
  | [] => [(k, b)]
  | kv :: rest => if kv.1 == k then (k, b) :: rest else kv :: setBucket rest k b

/-- Lines 25-29: endpoint lookup by exact route match. -/
def findEndpointByRoute (db : Db) (route : String) : Option Endpoint :=
  (db.endpoints.filter (fun e => e.route == route)).head?

/-- Lines 53-56: the middleware's reply — nothing when admitted, a
429 with the `error`-keyed JSON body on exhaustion. -/
def rateLimitDecision (admitted : Bool) : Option (Nat × JTop) :=
  if admitted then none
  else some (429, JTop.obj [("error", JVal.jstr "Rate limit exceeded")])

/-- Lines 13-65: the middleware.  `none` in the first component means
the request was admitted (no reply written); `some (status, body)` is
the rejection reply. -/
def rateLimitMiddleware (db : Db) (buckets : BucketMap) (ip route : String)
    (now : Int) : Option (Nat × JTop) × BucketMap :=
  match findEndpointByRoute db route with
  | none => (none, buckets)
  | some endpoint =>
      let bucketKey := ip ++ "-" ++ endpoint.id
      let step :=
        rateLimitStep (List.lookup bucketKey buckets) now
          (endpoint.rateLimit : ℚ) (endpoint.rateLimitWindowMs : ℚ)
      (rateLimitDecision step.1,
       match step.2 with
       | some b => setBucket buckets bucketKey b
       | none => buckets)

/-- Run the middleware over a list of arrival times for a fixed client
and route, collecting each call's reply. -/
def rateLimitRun (db : Db) (ip route : String) (times : List Int) :
    List (Option (Nat × JTop)) × BucketMap :=
  times.foldl
    (fun acc t =>
      let step := rateLimitMiddleware db acc.2 ip route t
      (acc.1 ++ [step.1], step.2))
    ([], [])

/- Helper lemmas. -/

/-- Looking up a key the filter always keeps is unchanged by the
filter. -/
theorem lookup_filter_of_pred (k : String) (l : JObj) (p : String × JVal → Bool)
    (hp : ∀ v, p (k, v) = true) :
    List.lookup k (l.filter p) = List.lookup k l := by
  induction l with
  | nil => rfl
  | cons kv rest ih =>
      rcases kv with ⟨k', v'⟩
      by_cases hkk : k = k'
      · subst hkk
        simp [List.filter_cons, hp v', List.lookup]
      · have hb : (k == k') = false := beq_eq_false_iff_ne.mpr hkk
        cases hpc : p (k', v') with
        | true => simp [List.filter_cons, hpc, List.lookup, hb, ih]
        | false => simp [List.filter_cons, hpc, List.lookup, hb, ih]

/-- C1: for every caller body and resolved endpoint the forwarded
canonical body carries the gateway-owned identity fields — the
canonical `user_id` (the spec's tenant id), the canonical
`endpoint_id`, and, when a (nonempty) first knowledge-reference id
was resolved, the canonical `schema_id`; caller entries under those
reserved names are discarded in favour of the canonical values, every
other caller key is merged in unchanged, and no spoofed `user_id`
value can appear in the forwarded body. -/
theorem c1_envelope_precedence (userId endpointId : String)
    (schemaId : Option String) (entries : JObj) :
    List.lookup "user_id" (forwardingBody userId endpointId schemaId entries)
      = some (JVal.jstr userId) ∧
    List.lookup "endpoint_id" (forwardingBody userId endpointId schemaId entries)
      = some (JVal.jstr endpointId) ∧
    (∀ s, schemaId = some s → s ≠ "" →
      List.lookup "schema_id" (forwardingBody userId endpointId schemaId entries)
        = some (JVal.jstr s)) ∧
    (∀ k, k ≠ "user_id" → k ≠ "endpoint_id" → k ≠ "schema_id" →
      List.lookup k (forwardingBody userId endpointId schemaId entries)
        = List.lookup k entries) ∧
    (∀ v, ("user_id", v) ∈ forwardingBody userId endpointId schemaId entries →
      v = JVal.jstr userId) := by
  refine ⟨rfl, rfl, ?_, ?_, ?_⟩
  · intro s hs hne
    subst hs
    simp only [forwardingBody, if_neg hne]
    rfl
  · intro k hk1 hk2 hk3
    have hb1 : (k == "user_id") = false := beq_eq_false_iff_ne.mpr hk1
    have hb2 : (k == "endpoint_id") = false := beq_eq_false_iff_ne.mpr hk2
    have hb3 : (k == "schema_id") = false := beq_eq_false_iff_ne.mpr hk3
    have hfix :
        List.lookup k (entries.filter
          (fun kv => kv.1 != "user_id" && kv.1 != "endpoint_id" && kv.1 != "schema_id"))
          = List.lookup k entries := by
      refine lookup_filter_of_pred k entries _ (fun v => ?_)
      simp [hk1, hk2, hk3]
    cases schemaId with
    | none => simpa [forwardingBody, List.lookup, hb1, hb2, hb3] using hfix
    | some s =>
        by_cases hse : s = ""
        · simpa [forwardingBody, hse, List.lookup, hb1, hb2, hb3] using hfix
        · simpa [forwardingBody, hse, List.lookup, hb1, hb2, hb3] using hfix
  · intro v hv
    simp only [forwardingBody, List.append_assoc, List.mem_append, List.mem_cons,
      List.mem_singleton, List.mem_filter] at hv
    rcases hv with h | h | h
    · rcases h with h | h
      · exact (Prod.mk.injEq _ _ _ _ ▸ h).2.symm ▸ rfl
      · simp at h
    · cases hs : schemaId with
      | none => rw [hs] at h; simp at h
      | some s =>
          rw [hs] at h
          by_cases hse : s = ""
          · simp [hse] at h
          · simp [hse] at h
    · have := h.2
      simp at this

/-- C1 witness: the spec's spoofing example — caller body
`(user_id: "spoofed", order_amount: 99.99)` forwarded for real tenant
`T1` yields `user_id: "T1"` with `order_amount` preserved, and no
spoofed value anywhere. -/
theorem c1_envelope_precedence_witness :
    List.lookup "user_id"
      (forwardingBody "T1" "E1" none
        [("user_id", JVal.jstr "spoofed"), ("order_amount", JVal.jnum "99.99")])
      = some (JVal.jstr "T1") ∧
    List.lookup "order_amount"
      (forwardingBody "T1" "E1" none
        [("user_id", JVal.jstr "spoofed"), ("order_amount", JVal.jnum "99.99")])
      = some (JVal.jnum "99.99") ∧
    (∀ v, ("user_id", v) ∈
        forwardingBody "T1" "E1" none
          [("user_id", JVal.jstr "spoofed"), ("order_amount", JVal.jnum "99.99")] →
      v = JVal.jstr "T1") := by
  have h := c1_envelope_precedence "T1" "E1" none
    [("user_id", JVal.jstr "spoofed"), ("order_amount", JVal.jnum "99.99")]
  refine ⟨h.1, ?_, h.2.2.2.2⟩
  have h4 := h.2.2.2.1 "order_amount" (by decide) (by decide) (by decide)
  rw [h4]
  decide

/-- C8 counterexample: a caller body that is a string — the text
of a JSON object — does not degenerate to the canonical fields: the
handler parses it and merges its key `a` into the forwarded body. -/
theorem c8_counterexample :
    buildForwardingBody "u" "e" none (some (JTop.prim (JVal.jstr "\x7b\"a\":1\x7d")))
      = some [("user_id", JVal.jstr "u"), ("endpoint_id", JVal.jstr "e"),
              ("a", JVal.jnum "1")] ∧
    List.lookup "a"
      [("user_id", JVal.jstr "u"), ("endpoint_id", JVal.jstr "e"),
       ("a", JVal.jnum "1")] = some (JVal.jnum "1") := by
  exact ⟨by decide, by decide⟩

/-- C8 (amended): an absent caller body, a string body whose text
does not parse as JSON, and any falsy body degenerate to exactly the
canonical fields (no caller-derived key appears); a string body whose
text parses as a JSON object is instead merged as though that object
had been supplied. -/
theorem c8_amended (userId endpointId : String) (schemaId : Option String) :
    (buildForwardingBody userId endpointId schemaId none
       = some (forwardingBody userId endpointId schemaId [])) ∧
    (∀ s, jsonParse s = none →
       buildForwardingBody userId endpointId schemaId
           (some (JTop.prim (JVal.jstr s)))
         = some (forwardingBody userId endpointId schemaId [])) ∧
    (∀ s fs, jsonParse s = some (JTop.obj fs) →
       buildForwardingBody userId endpointId schemaId
           (some (JTop.prim (JVal.jstr s)))
         = some (forwardingBody userId endpointId schemaId fs)) ∧
    (∀ b, jsTruthy b = false →
       buildForwardingBody userId endpointId schemaId (some b)
         = some (forwardingBody userId endpointId schemaId [])) ∧
    (∀ k v, (k, v) ∈ forwardingBody userId endpointId schemaId [] →
       k = "user_id" ∨ k = "endpoint_id" ∨ k = "schema_id") := by
  refine ⟨rfl, ?_, ?_, ?_, ?_⟩
  · intro s hs
    by_cases hse : s = ""
    · subst hse
      rfl
    · have hb : (s != "") = true := by simpa using hse
      simp [buildForwardingBody, envelopeEntries, normalizeBody, jsTruthy,
        typeofObject, hb, hs, ownEntries]
  · intro s fs hs
    by_cases hse : s = ""
    · subst hse
      have hnone : jsonParse "" = none := by decide
      rw [hnone] at hs
      exact Option.noConfusion hs
    · have hb : (s != "") = true := by simpa using hse
      simp [buildForwardingBody, envelopeEntries, normalizeBody, jsTruthy,
        typeofObject, hb, hs, ownEntries]
  · intro b hbf
    cases b with
    | prim v =>
        cases v with
        | jnull => rfl
        | jbool bb =>
            cases bb with
            | false => rfl
            | true => simp [jsTruthy] at hbf
        | jnum lit =>
            simp only [jsTruthy] at hbf
            simp [buildForwardingBody, envelopeEntries, normalizeBody, jsTruthy,
              typeofObject, hbf, ownEntries]
        | jstr s =>
            simp only [jsTruthy] at hbf
            simp [buildForwardingBody, envelopeEntries, normalizeBody, jsTruthy,
              typeofObject, hbf, ownEntries]
        | jraw lit => simp [jsTruthy] at hbf
    | obj o => simp [jsTruthy] at hbf
    | arr xs => simp [jsTruthy] at hbf
  · intro k v hv
    cases hsid : schemaId with
    | none =>
        rw [hsid] at hv
        simp [forwardingBody] at hv
        rcases hv with h | h
        · exact Or.inl h.1
        · exact Or.inr (Or.inl h.1)
    | some s =>
        rw [hsid] at hv
        by_cases hse : s = ""
        · simp [forwardingBody, hse] at hv
          rcases hv with h | h
          · exact Or.inl h.1
          · exact Or.inr (Or.inl h.1)
        · simp [forwardingBody, hse] at hv
          rcases hv with h | h | h
          · exact Or.inl h.1
          · exact Or.inr (Or.inl h.1)
          · exact Or.inr (Or.inr h.1)

/-- C8 witness: the amended statement applied at concrete inputs — an
absent body and the unparseable string body `"notjson"` both yield
only the canonical fields. -/
theorem c8_amended_witness :
    buildForwardingBody "T1" "E1" (some "S1") none
      = some (forwardingBody "T1" "E1" (some "S1") []) ∧
    buildForwardingBody "T1" "E1" (some "S1")
        (some (JTop.prim (JVal.jstr "notjson")))
      = some (forwardingBody "T1" "E1" (some "S1") []) := by
  have h := c8_amended "T1" "E1" (some "S1")
  exact ⟨h.1, h.2.1 "notjson" (by decide)⟩

/-- A rejection of the credential stage is one of the four credential
failure variants (never the configuration-error or forwarded exits). -/
theorem credentialStage_error_exit (hash : String → String) (db : Db) (now : Int)
    (endpointId : String) (key : Option String) (ce : CredErr)
    (h : credentialStage hash db now endpointId key = Except.error ce) :
    ce.exitKind = Exit.invalidToken ∨ ce.exitKind = Exit.expiredToken ∨
    ce.exitKind = Exit.notAssociated ∨ ce.exitKind = Exit.tokenRequired := by
  have hno : ∀ ce', credentialStageNoKey db endpointId = Except.error ce' →
      ce'.exitKind = Exit.tokenRequired := by
    intro ce' h'
    unfold credentialStageNoKey at h'
    split at h'
    · cases h'
      rfl
    · exact Except.noConfusion h'
  cases key with
  | none =>
      unfold credentialStage at h
      exact Or.inr (Or.inr (Or.inr (hno ce h)))
  | some k =>
      simp only [credentialStage] at h
      split at h
      · exact Or.inr (Or.inr (Or.inr (hno ce h)))
      · split at h
        · injection h with h2
          subst h2
          simp
        · split at h
          · injection h with h2
            subst h2
            simp
          · split at h
            · injection h with h2
              subst h2
              simp
            · exact Except.noConfusion h

/-- When the strict (active-only) endpoint lookup succeeds, the
relaxed lookup of the catch block also finds a row. -/
theorem resolveAny_of_resolve (db : Db) (endpointId userId : String) (e : Endpoint)
    (h : resolveEndpoint db endpointId userId = some e) :
    ∃ x, resolveEndpointAnyActive db endpointId userId = some x := by
  unfold resolveEndpoint at h
  unfold resolveEndpointAnyActive
  have hmem : e ∈ db.endpoints.filter
      (fun x => x.id == endpointId && x.userId == userId && x.isActive) := by
    cases hl : db.endpoints.filter
        (fun x => x.id == endpointId && x.userId == userId && x.isActive) with
    | nil => rw [hl] at h; cases h
    | cons a as =>
        rw [hl] at h
        have : a = e := by
          simpa [List.head?] using h
        rw [← this]
        exact List.mem_cons_self _ _
  have hq : e ∈ db.endpoints.filter
      (fun x => x.id == endpointId && x.userId == userId) := by
    rcases List.mem_filter.mp hmem with ⟨hin, hp⟩
    refine List.mem_filter.mpr ⟨hin, ?_⟩
    simp only [Bool.and_eq_true] at hp
    simp [hp.1.1, hp.1.2]
  cases hl2 : db.endpoints.filter (fun x => x.id == endpointId && x.userId == userId) with
  | nil => rw [hl2] at hq; cases hq
  | cons a as => exact ⟨a, rfl⟩

/-- The catch block attempts exactly one log write when both path
params are nonempty and the relaxed endpoint lookup succeeds. -/
theorem catchResult_logs_one (hash : String → String) (db : Db)
    (endpointId userId : String) (key : Option String) (b : Body) (msg : String)
    (df : Bool) (fb : Option String)
    (h1 : endpointId ≠ "") (h2 : userId ≠ "")
    (x : Endpoint) (hres : resolveEndpointAnyActive db endpointId userId = some x) :
    (catchResult hash db endpointId userId key b msg df fb).logs.length = 1 := by
  unfold catchResult
  simp only [if_pos (And.intro h1 h2), hres]
  rfl

set_option maxHeartbeats 1600000 in
/-- Exhaustive description of the forward stage's outcomes. -/
theorem forwardStageCore_cases (db : Db) (endpointId userId : String)
    (endpoint : Endpoint) (apiTokenId : Option String) (b : Body) (fo : FetchOutcome) :
    (envelopeEntries b = none ∧
      forwardStageCore db endpointId userId endpoint apiTokenId b fo
        = Except.error ⟨"Cannot convert undefined or null to object", false, none⟩) ∨
    (∃ entries, envelopeEntries b = some entries ∧
      ((jsStartsWith endpoint.route "http://" = false ∧
        jsStartsWith endpoint.route "https://" = false ∧
        forwardStageCore db endpointId userId endpoint apiTokenId b fo
          = Except.ok
              { status := 400
                reply := msgReply "Route must be a full URL (starting with http:// or https://)"
                gatewayReply := true
                logs := []
                didForward := false
                forwardedBody := none
                exit := Exit.configError
                credentialStagePassed := true }) ∨
      (∃ m, fo = FetchOutcome.err m ∧
        forwardStageCore db endpointId userId endpoint apiTokenId b fo
          = Except.error
              ⟨m, true,
               some (stringifyObj (forwardingBody userId endpointId
                 (firstSchemaId db endpointId) entries))⟩) ∨
      (∃ st text, fo = FetchOutcome.ok st text ∧
        forwardStageCore db endpointId userId endpoint apiTokenId b fo
          = Except.ok
              { status := st
                reply := match jsonParse text with
                         | some v => v
                         | none => JTop.prim (JVal.jstr text)
                gatewayReply := false
                logs := [{ endpointId := endpoint.id
                           apiTokenId := apiTokenId
                           status := st
                           requestBody := mainRequestBodyText b
                           responseBody := some (truncateLog text)
                           errorMessage := none }]
                didForward := true
                forwardedBody := some (stringifyObj (forwardingBody userId endpointId
                  (firstSchemaId db endpointId) entries))
                exit := Exit.forwarded
                credentialStagePassed := true }))) := by
  cases henv : envelopeEntries b with
  | none =>
      left
      refine ⟨rfl, ?_⟩
      unfold forwardStageCore
      rw [henv]
  | some entries =>
      right
      refine ⟨entries, rfl, ?_⟩
      have hcore : forwardStageCore db endpointId userId endpoint apiTokenId b fo
          = forwardStageAfterEnvelope db endpointId userId endpoint apiTokenId b fo entries := by
        unfold forwardStageCore
        rw [henv]
      cases h7 : jsStartsWith endpoint.route "http://" with
      | true =>
          have hcond : (!(jsStartsWith endpoint.route "http://")
              && !(jsStartsWith endpoint.route "https://")) = false := by
            rw [h7]
            rfl
          right
          cases fo with
          | err m =>
              left
              refine ⟨m, rfl, ?_⟩
              rw [hcore]
              unfold forwardStageAfterEnvelope
              simp only [hcond]
              rfl
          | ok st text =>
              right
              refine ⟨st, text, rfl, ?_⟩
              rw [hcore]
              unfold forwardStageAfterEnvelope
              simp only [hcond]
              rfl
      | false =>
          cases h8 : jsStartsWith endpoint.route "https://" with
          | true =>
              have hcond : (!(jsStartsWith endpoint.route "http://")
                  && !(jsStartsWith endpoint.route "https://")) = false := by
                rw [h7, h8]
                rfl
              right
              cases fo with
              | err m =>
                  left
                  refine ⟨m, rfl, ?_⟩
                  rw [hcore]
                  unfold forwardStageAfterEnvelope
                  simp only [hcond]
                  rfl
              | ok st text =>
                  right
                  refine ⟨st, text, rfl, ?_⟩
                  rw [hcore]
                  unfold forwardStageAfterEnvelope
                  simp only [hcond]
                  rfl
          | false =>
              have hcond : (!(jsStartsWith endpoint.route "http://")
                  && !(jsStartsWith endpoint.route "https://")) = true := by
                rw [h7, h8]
                rfl
              left
              refine ⟨rfl, rfl, ?_⟩
              rw [hcore]
              unfold forwardStageAfterEnvelope
              simp only [hcond]
              rfl

/-- The middleware's reply is either absent or the 429 rejection. -/
theorem rateLimitDecision_shape (a : Bool) :
    rateLimitDecision a = none ∨
    rateLimitDecision a = some (429, JTop.obj [("error", JVal.jstr "Rate limit exceeded")]) := by
  cases a with
  | true => exact Or.inl rfl
  | false => exact Or.inr rfl

/-- The projection facts of the catch block's result. -/
theorem catchResult_shape (hash : String → String) (db : Db) (endpointId userId : String)
    (key : Option String) (b : Body) (msg : String) (df : Bool) (fb : Option String) :
    (catchResult hash db endpointId userId key b msg df fb).status = 500 ∧
    (catchResult hash db endpointId userId key b msg df fb).reply
      = msgReply (if msg = "" then "Internal server error" else msg) ∧
    (catchResult hash db endpointId userId key b msg df fb).gatewayReply = true ∧
    (catchResult hash db endpointId userId key b msg df fb).exit = Exit.exceptionCaught ∧
    (catchResult hash db endpointId userId key b msg df fb).didForward = df ∧
    (catchResult hash db endpointId userId key b msg df fb).forwardedBody = fb ∧
    (catchResult hash db endpointId userId key b msg df fb).credentialStagePassed = true :=
  ⟨rfl, rfl, rfl, rfl, rfl, rfl, rfl⟩

/-- An `Except` value is an error or a success. -/
theorem exceptCases {e a : Type} (x : Except e a) :
    (∃ er, x = Except.error er) ∨ (∃ v, x = Except.ok v) := by
  cases x with
  | error er => exact Or.inl ⟨er, rfl⟩
  | ok v => exact Or.inr ⟨v, rfl⟩

set_option maxHeartbeats 1600000 in
/-- Exhaustive description of the handler's outcomes in terms of its
stages. -/
theorem handleDynamicPost_cases (hash : String → String) (db : Db) (now : Int)
    (endpointId userId : String) (key : Option String) (b : Body) (fo : FetchOutcome) :
    (resolveEndpoint db endpointId userId = none ∧
      handleDynamicPost hash db now endpointId userId key b fo =
        { status := 404
          reply := msgReply "Endpoint not found or inactive"
          gatewayReply := true
          logs := []
          didForward := false
          forwardedBody := none
          exit := Exit.notFound
          credentialStagePassed := false }) ∨
    (∃ e, resolveEndpoint db endpointId userId = some e ∧
      ((∃ ce, credentialStage hash db now endpointId key = Except.error ce ∧
          handleDynamicPost hash db now endpointId userId key b fo =
            { status := 403
              reply := msgReply ce.msg
              gatewayReply := true
              logs := [{ endpointId := e.id
                         apiTokenId := ce.logTokenId
                         status := 403
                         requestBody := earlyRequestBodyText b
                         responseBody := none
                         errorMessage := some ce.msg }]
              didForward := false
              forwardedBody := none
              exit := ce.exitKind
              credentialStagePassed := false }) ∨
       (∃ tid r, credentialStage hash db now endpointId key = Except.ok tid ∧
          forwardStageCore db endpointId userId e tid b fo = Except.ok r ∧
          handleDynamicPost hash db now endpointId userId key b fo = r) ∨
       (∃ tid fe, credentialStage hash db now endpointId key = Except.ok tid ∧
          forwardStageCore db endpointId userId e tid b fo = Except.error fe ∧
          handleDynamicPost hash db now endpointId userId key b fo =
            catchResult hash db endpointId userId key b fe.msg fe.didForward
              fe.forwardedBody))) := by
  rcases Option.eq_none_or_eq_some (resolveEndpoint db endpointId userId) with
    hres | ⟨e, hres⟩
  · left
    refine ⟨hres, ?_⟩
    unfold handleDynamicPost
    rw [hres]
  · right
    refine ⟨e, hres, ?_⟩
    have h1 : handleDynamicPost hash db now endpointId userId key b fo
        = afterResolve hash db now endpointId userId key b fo e := by
      unfold handleDynamicPost
      rw [hres]
    rcases exceptCases (credentialStage hash db now endpointId key) with
      ⟨ce, hcred⟩ | ⟨tid, hcred⟩
    · left
      refine ⟨ce, hcred, ?_⟩
      rw [h1]
      unfold afterResolve
      rw [hcred]
    · right
      have h2 : afterResolve hash db now endpointId userId key b fo e
          = afterCredential hash db endpointId userId key b fo e tid := by
        unfold afterResolve
        rw [hcred]
      rcases exceptCases (forwardStageCore db endpointId userId e tid b fo) with
        ⟨fe, hfwd⟩ | ⟨r, hfwd⟩
      · right
        refine ⟨tid, fe, hcred, hfwd, ?_⟩
        rw [h1, h2]
        unfold afterCredential
        rw [hfwd]
      · left
        refine ⟨tid, r, hcred, hfwd, ?_⟩
        rw [h1, h2]
        unfold afterCredential
        rw [hfwd]

/-- C2 counterexample: an endpoint that resolves but whose destination
is the bare path `/webhook` — the handler takes the 400
configuration-error exit and attempts no call-log write, although
endpoint resolution succeeded. -/
theorem c2_counterexample :
    (resolveEndpoint ⟨[⟨"e1", "u1", "/webhook", true, 100, 60000⟩], [], [], []⟩
        "e1" "u1").isSome = true ∧
    (handleDynamicPost (fun s => s)
        ⟨[⟨"e1", "u1", "/webhook", true, 100, 60000⟩], [], [], []⟩
        0 "e1" "u1" none none (FetchOutcome.err "boom")).status = 400 ∧
    (handleDynamicPost (fun s => s)
        ⟨[⟨"e1", "u1", "/webhook", true, 100, 60000⟩], [], [], []⟩
        0 "e1" "u1" none none (FetchOutcome.err "boom")).logs = [] := by
  exact ⟨by decide, by decide, by decide⟩

set_option maxHeartbeats 1600000 in
/-- C2 (amended): when endpoint resolution fails the request is
answered 404 and no log write is attempted; when it succeeds (and the
path params are nonempty, as ids are) every exit attempts exactly one
call-log write — except the 400 configuration-error exit for a
non-absolute destination URL, which attempts none. -/
theorem c2_amended (hash : String → String) (db : Db) (now : Int)
    (endpointId userId : String) (key : Option String) (b : Body) (fo : FetchOutcome) :
    (resolveEndpoint db endpointId userId = none →
      (handleDynamicPost hash db now endpointId userId key b fo).status = 404 ∧
      (handleDynamicPost hash db now endpointId userId key b fo).logs = []) ∧
    (∀ e, resolveEndpoint db endpointId userId = some e →
      endpointId ≠ "" → userId ≠ "" →
      (((handleDynamicPost hash db now endpointId userId key b fo).exit
          = Exit.configError →
        (handleDynamicPost hash db now endpointId userId key b fo).logs = []) ∧
       ((handleDynamicPost hash db now endpointId userId key b fo).exit
          ≠ Exit.configError →
        (handleDynamicPost hash db now endpointId userId key b fo).logs.length = 1))) := by
  constructor
  · intro hres
    rcases handleDynamicPost_cases hash db now endpointId userId key b fo with
      ⟨_, hh⟩ | ⟨e, he, _⟩
    · rw [hh]
      exact ⟨rfl, rfl⟩
    · rw [hres] at he
      exact Option.noConfusion he
  · intro e hres h1 h2
    rcases handleDynamicPost_cases hash db now endpointId userId key b fo with
      ⟨hn, _⟩ | ⟨e', he', hcase⟩
    · rw [hres] at hn
      exact Option.noConfusion hn
    · rcases hcase with ⟨ce, hcred, hh⟩ | ⟨tid, r, hcred, hfwd, hh⟩ |
        ⟨tid, fe, hcred, hfwd, hh⟩
      · rw [hh]
        constructor
        · intro hx
          rcases credentialStage_error_exit hash db now endpointId key ce hcred with
            hek | hek | hek | hek <;> (rw [hek] at hx; exact Exit.noConfusion hx)
        · intro _
          rfl
      · rcases forwardStageCore_cases db endpointId userId e' tid b fo with
          ⟨_, hc⟩ | ⟨entries, henv, ⟨h7, h8, heq⟩ | ⟨m, hfo, heq⟩ | ⟨st, text, hfo, heq⟩⟩
        · rw [hfwd] at hc
          exact Except.noConfusion hc
        · rw [hfwd] at heq
          injection heq with hr
          rw [hh, hr]
          constructor
          · intro _
            rfl
          · intro hne
            exact absurd rfl hne
        · rw [hfwd] at heq
          exact Except.noConfusion heq
        · rw [hfwd] at heq
          injection heq with hr
          rw [hh, hr]
          constructor
          · intro hx
            exact Exit.noConfusion hx
          · intro _
            rfl
      · rw [hh]
        obtain ⟨x, hx⟩ := resolveAny_of_resolve db endpointId userId e hres
        constructor
        · intro hxx
          rw [(catchResult_shape hash db endpointId userId key b fe.msg fe.didForward
            fe.forwardedBody).2.2.2.1] at hxx
          exact Exit.noConfusion hxx
        · intro _
          exact catchResult_logs_one hash db endpointId userId key b fe.msg
            fe.didForward fe.forwardedBody h1 h2 x hx

/-- C2 witness: a resolved endpoint with an absolute destination and a
successful forward attempts exactly one log write; an unresolved
endpoint attempts none. -/
theorem c2_amended_witness :
    (handleDynamicPost (fun s => s)
        ⟨[⟨"e1", "u1", "https://dest.example", true, 100, 60000⟩], [], [], []⟩
        0 "e1" "u1" none none (FetchOutcome.ok 200 "ok")).logs.length = 1 ∧
    (handleDynamicPost (fun s => s)
        ⟨[⟨"e1", "u1", "https://dest.example", true, 100, 60000⟩], [], [], []⟩
        0 "missing" "u1" none none (FetchOutcome.ok 200 "ok")).logs = [] := by
  constructor
  · exact ((c2_amended (fun s => s)
      ⟨[⟨"e1", "u1", "https://dest.example", true, 100, 60000⟩], [], [], []⟩
      0 "e1" "u1" none none (FetchOutcome.ok 200 "ok")).2
      ⟨"e1", "u1", "https://dest.example", true, 100, 60000⟩ (by decide)
      (by decide) (by decide)).2 (by decide)
  · exact ((c2_amended (fun s => s)
      ⟨[⟨"e1", "u1", "https://dest.example", true, 100, 60000⟩], [], [], []⟩
      0 "missing" "u1" none none (FetchOutcome.ok 200 "ok")).1 (by decide)).2

/-- A key-less request to an endpoint with no associated tokens
passes the credential stage. -/
theorem credentialStage_public (hash : String → String) (db : Db) (now : Int)
    (endpointId : String)
    (hzero : endpointHasAssociatedTokens db endpointId = false) :
    credentialStage hash db now endpointId none = Except.ok none := by
  unfold credentialStage credentialStageNoKey
  rw [hzero]
  rfl

/-- A key-less request to an endpoint with associated tokens is
rejected as requiring a credential. -/
theorem credentialStage_required (hash : String → String) (db : Db) (now : Int)
    (endpointId : String)
    (hsome : endpointHasAssociatedTokens db endpointId = true) :
    credentialStage hash db now endpointId none
      = Except.error ⟨"API token required", none, Exit.tokenRequired⟩ := by
  unfold credentialStage credentialStageNoKey
  rw [hsome]
  rfl

/-- A matching active credential whose expiry is in the past is
rejected as expired — the association with the endpoint is never
consulted. -/
theorem credentialStage_expired (hash : String → String) (db : Db) (now : Int)
    (endpointId k : String) (tok : ApiToken) (t : Int)
    (hk : k ≠ "") (htok : findActiveTokenByHash db (hash k) = some tok)
    (hexp : tok.expiresAt = some t) (hlt : t < now) :
    credentialStage hash db now endpointId (some k)
      = Except.error ⟨"API token has expired", some tok.id, Exit.expiredToken⟩ := by
  have hte : tokenExpired tok now = true := by
    unfold tokenExpired
    rw [hexp]
    simpa using hlt
  simp [credentialStage, hk, htok, hte]

/-- An endpoint with no associated tokens has no association row for
any token. -/
theorem findAssociation_eq_none (db : Db) (endpointId tid : String)
    (hzero : endpointHasAssociatedTokens db endpointId = false) :
    findAssociation db endpointId tid = none := by
  unfold endpointHasAssociatedTokens at hzero
  unfold findAssociation
  cases hl : db.endpointApiTokens.filter
      (fun a => a.endpointId == endpointId && a.apiTokenId == tid) with
  | nil => rfl
  | cons a as =>
      exfalso
      have hmem : a ∈ db.endpointApiTokens.filter
          (fun a => a.endpointId == endpointId && a.apiTokenId == tid) := by
        rw [hl]
        exact List.mem_cons_self _ _
      rcases List.mem_filter.mp hmem with ⟨hin, hp⟩
      simp only [Bool.and_eq_true] at hp
      have hany : db.endpointApiTokens.any (fun a => a.endpointId == endpointId) = true :=
        List.any_eq_true.mpr ⟨a, hin, hp.1⟩
      rw [hany] at hzero
      exact Bool.noConfusion hzero

/-- A matching, active, unexpired credential with no association row
for the called endpoint is rejected as not authorized. -/
theorem credentialStage_not_associated (hash : String → String) (db : Db) (now : Int)
    (endpointId k : String) (tok : ApiToken)
    (hk : k ≠ "") (htok : findActiveTokenByHash db (hash k) = some tok)
    (hnexp : tokenExpired tok now = false)
    (hassoc : findAssociation db endpointId tok.id = none) :
    credentialStage hash db now endpointId (some k)
      = Except.error ⟨"API token is not authorized for this endpoint", some tok.id,
          Exit.notAssociated⟩ := by
  simp [credentialStage, hk, htok, hnexp, hassoc]

/-- With a resolved endpoint whose destination is not an absolute
http(s) URL the forward stage returns the 400 configuration-error
result without logging or forwarding. -/
theorem forwardStageCore_configError (db : Db) (endpointId userId : String)
    (endpoint : Endpoint) (tid : Option String) (b : Body) (fo : FetchOutcome)
    (entries : JObj)
    (henv : envelopeEntries b = some entries)
    (h7 : jsStartsWith endpoint.route "http://" = false)
    (h8 : jsStartsWith endpoint.route "https://" = false) :
    forwardStageCore db endpointId userId endpoint tid b fo
      = Except.ok
          { status := 400
            reply := msgReply "Route must be a full URL (starting with http:// or https://)"
            gatewayReply := true
            logs := []
            didForward := false
            forwardedBody := none
            exit := Exit.configError
            credentialStagePassed := true } := by
  have hcond : (!(jsStartsWith endpoint.route "http://")
      && !(jsStartsWith endpoint.route "https://")) = true := by
    rw [h7, h8]
    rfl
  unfold forwardStageCore
  rw [henv]
  unfold forwardStageAfterEnvelope
  simp only [hcond]
  rfl

/-- C3: a request presenting no credential header passes the
credential stage of an endpoint with zero associated credentials and
proceeds toward forwarding, while the same request to an endpoint
with at least one associated credential is rejected 403 with the
"API token required" message before any outbound call. -/
theorem c3_credential_requirement (hash : String → String) (db : Db) (now : Int)
    (endpointId userId : String) (b : Body) (fo : FetchOutcome) (e : Endpoint)
    (hres : resolveEndpoint db endpointId userId = some e) :
    (endpointHasAssociatedTokens db endpointId = false →
      (handleDynamicPost hash db now endpointId userId none b fo).credentialStagePassed
        = true) ∧
    (endpointHasAssociatedTokens db endpointId = true →
      (handleDynamicPost hash db now endpointId userId none b fo).status = 403 ∧
      (handleDynamicPost hash db now endpointId userId none b fo).reply
        = msgReply "API token required" ∧
      (handleDynamicPost hash db now endpointId userId none b fo).didForward = false) := by
  constructor
  · intro hzero
    rcases handleDynamicPost_cases hash db now endpointId userId none b fo with
      ⟨hn, _⟩ | ⟨e', he', hcase⟩
    · rw [hres] at hn
      exact Option.noConfusion hn
    · rcases hcase with ⟨ce, hcred, hh⟩ | ⟨tid, r, hcred, hfwd, hh⟩ |
        ⟨tid, fe, hcred, hfwd, hh⟩
      · rw [credentialStage_public hash db now endpointId hzero] at hcred
        exact Except.noConfusion hcred
      · rcases forwardStageCore_cases db endpointId userId e' tid b fo with
          ⟨_, hc⟩ | ⟨entries, henv, ⟨h7, h8, heq⟩ | ⟨m, hfo, heq⟩ | ⟨st, text, hfo, heq⟩⟩
        · rw [hfwd] at hc
          exact Except.noConfusion hc
        · rw [hfwd] at heq
          injection heq with hr
          rw [hh, hr]
        · rw [hfwd] at heq
          exact Except.noConfusion heq
        · rw [hfwd] at heq
          injection heq with hr
          rw [hh, hr]
      · rw [hh]
        exact (catchResult_shape hash db endpointId userId none b fe.msg fe.didForward
          fe.forwardedBody).2.2.2.2.2.2
  · intro hsome
    rcases handleDynamicPost_cases hash db now endpointId userId none b fo with
      ⟨hn, _⟩ | ⟨e', he', hcase⟩
    · rw [hres] at hn
      exact Option.noConfusion hn
    · rcases hcase with ⟨ce, hcred, hh⟩ | ⟨tid, r, hcred, hfwd, hh⟩ |
        ⟨tid, fe, hcred, hfwd, hh⟩
      · rw [credentialStage_required hash db now endpointId hsome] at hcred
        injection hcred with hce
        rw [hh, ← hce]
        exact ⟨rfl, rfl, rfl⟩
      · rw [credentialStage_required hash db now endpointId hsome] at hcred
        exact Except.noConfusion hcred
      · rw [credentialStage_required hash db now endpointId hsome] at hcred
        exact Except.noConfusion hcred

/-- C3 witness: a public endpoint admits a key-less request past the
credential stage; an endpoint with an associated token answers the
same request 403 "API token required" without forwarding. -/
theorem c3_credential_requirement_witness :
    (handleDynamicPost (fun s => s)
        ⟨[⟨"e1", "u1", "https://dest.example", true, 100, 60000⟩], [], [], []⟩
        0 "e1" "u1" none none (FetchOutcome.ok 200 "ok")).credentialStagePassed
      = true ∧
    (handleDynamicPost (fun s => s)
        ⟨[⟨"e1", "u1", "https://dest.example", true, 100, 60000⟩],
          [⟨"t1", "h1", true, none⟩], [⟨"e1", "t1"⟩], []⟩
        0 "e1" "u1" none none (FetchOutcome.ok 200 "ok")).status = 403 ∧
    (handleDynamicPost (fun s => s)
        ⟨[⟨"e1", "u1", "https://dest.example", true, 100, 60000⟩],
          [⟨"t1", "h1", true, none⟩], [⟨"e1", "t1"⟩], []⟩
        0 "e1" "u1" none none (FetchOutcome.ok 200 "ok")).didForward = false := by
  refine ⟨?_, ?_, ?_⟩
  · exact (c3_credential_requirement (fun s => s)
      ⟨[⟨"e1", "u1", "https://dest.example", true, 100, 60000⟩], [], [], []⟩
      0 "e1" "u1" none (FetchOutcome.ok 200 "ok")
      ⟨"e1", "u1", "https://dest.example", true, 100, 60000⟩ (by decide)).1 (by decide)
  · exact ((c3_credential_requirement (fun s => s)
      ⟨[⟨"e1", "u1", "https://dest.example", true, 100, 60000⟩],
        [⟨"t1", "h1", true, none⟩], [⟨"e1", "t1"⟩], []⟩
      0 "e1" "u1" none (FetchOutcome.ok 200 "ok")
      ⟨"e1", "u1", "https://dest.example", true, 100, 60000⟩ (by decide)).2 (by decide)).1
  · exact ((c3_credential_requirement (fun s => s)
      ⟨[⟨"e1", "u1", "https://dest.example", true, 100, 60000⟩],
        [⟨"t1", "h1", true, none⟩], [⟨"e1", "t1"⟩], []⟩
      0 "e1" "u1" none (FetchOutcome.ok 200 "ok")
      ⟨"e1", "u1", "https://dest.example", true, 100, 60000⟩ (by decide)).2 (by decide)).2.2

/-- C4: a presented credential that matches a stored hash and is
active but expired is rejected with the expired variant of 403 —
message "API token has expired", logged with that credential's id —
for every database, in particular one where the credential is not
associated with the called endpoint: the expiry check is decided
before the association check. -/
theorem c4_expired_precedence (hash : String → String) (db : Db) (now : Int)
    (endpointId userId k : String) (b : Body) (fo : FetchOutcome) (e : Endpoint)
    (tok : ApiToken) (t : Int)
    (hres : resolveEndpoint db endpointId userId = some e)
    (hk : k ≠ "")
    (htok : findActiveTokenByHash db (hash k) = some tok)
    (hexp : tok.expiresAt = some t) (hlt : t < now) :
    (handleDynamicPost hash db now endpointId userId (some k) b fo).status = 403 ∧
    (handleDynamicPost hash db now endpointId userId (some k) b fo).reply
      = msgReply "API token has expired" ∧
    (handleDynamicPost hash db now endpointId userId (some k) b fo).exit
      = Exit.expiredToken ∧
    (handleDynamicPost hash db now endpointId userId (some k) b fo).logs
      = [⟨e.id, some tok.id, 403, earlyRequestBodyText b, none,
          some "API token has expired"⟩] ∧
    (handleDynamicPost hash db now endpointId userId (some k) b fo).didForward
      = false := by
  have hcs := credentialStage_expired hash db now endpointId k tok t hk htok hexp hlt
  rcases handleDynamicPost_cases hash db now endpointId userId (some k) b fo with
    ⟨hn, _⟩ | ⟨e', he', hcase⟩
  · rw [hres] at hn
    exact Option.noConfusion hn
  · rw [hres] at he'
    injection he' with he''
    subst he''
    rcases hcase with ⟨ce, hcred, hh⟩ | ⟨tid, r, hcred, hfwd, hh⟩ |
      ⟨tid, fe, hcred, hfwd, hh⟩
    · rw [hcs] at hcred
      injection hcred with hce
      rw [hh, ← hce]
      exact ⟨rfl, rfl, rfl, rfl, rfl⟩
    · rw [hcs] at hcred
      exact Except.noConfusion hcred
    · rw [hcs] at hcred
      exact Except.noConfusion hcred

/-- C4 witness: a matching active credential expired 5ms before the
request, on a database with no association rows at all — the request
is answered with the expired variant and logged with the credential's
id. -/
theorem c4_expired_precedence_witness :
    (handleDynamicPost (fun s => String.append "H" s)
        ⟨[⟨"e1", "u1", "https://dest.example", true, 100, 60000⟩],
          [⟨"t1", "Hsecret", true, some (-5)⟩], [], []⟩
        0 "e1" "u1" (some "secret") none (FetchOutcome.ok 200 "ok")).status = 403 ∧
    (handleDynamicPost (fun s => String.append "H" s)
        ⟨[⟨"e1", "u1", "https://dest.example", true, 100, 60000⟩],
          [⟨"t1", "Hsecret", true, some (-5)⟩], [], []⟩
        0 "e1" "u1" (some "secret") none (FetchOutcome.ok 200 "ok")).reply
      = msgReply "API token has expired" ∧
    (handleDynamicPost (fun s => String.append "H" s)
        ⟨[⟨"e1", "u1", "https://dest.example", true, 100, 60000⟩],
          [⟨"t1", "Hsecret", true, some (-5)⟩], [], []⟩
        0 "e1" "u1" (some "secret") none (FetchOutcome.ok 200 "ok")).logs
      = [⟨"e1", some "t1", 403, none, none, some "API token has expired"⟩] := by
  have h := c4_expired_precedence (fun s => String.append "H" s)
    ⟨[⟨"e1", "u1", "https://dest.example", true, 100, 60000⟩],
      [⟨"t1", "Hsecret", true, some (-5)⟩], [], []⟩
    0 "e1" "u1" "secret" none (FetchOutcome.ok 200 "ok")
    ⟨"e1", "u1", "https://dest.example", true, 100, 60000⟩
    ⟨"t1", "Hsecret", true, some (-5)⟩ (-5)
    (by decide) (by decide) (by decide) (by decide) (by decide)
  exact ⟨h.1, h.2.1, h.2.2.2.1⟩

/-- C6: for a resolved endpoint whose destination URL begins with
neither `http://` nor `https://`, a request that passes the
credential stage (and whose envelope builds) is answered 400 with the
full-URL message and no outbound call is made. -/
theorem c6_config_error (hash : String → String) (db : Db) (now : Int)
    (endpointId userId : String) (key : Option String) (b : Body) (fo : FetchOutcome)
    (e : Endpoint) (tid : Option String) (entries : JObj)
    (hres : resolveEndpoint db endpointId userId = some e)
    (hcred : credentialStage hash db now endpointId key = Except.ok tid)
    (henv : envelopeEntries b = some entries)
    (h7 : jsStartsWith e.route "http://" = false)
    (h8 : jsStartsWith e.route "https://" = false) :
    (handleDynamicPost hash db now endpointId userId key b fo).status = 400 ∧
    (handleDynamicPost hash db now endpointId userId key b fo).reply
      = msgReply "Route must be a full URL (starting with http:// or https://)" ∧
    (handleDynamicPost hash db now endpointId userId key b fo).didForward = false ∧
    (handleDynamicPost hash db now endpointId userId key b fo).forwardedBody
      = none := by
  have hfs := forwardStageCore_configError db endpointId userId e tid b fo entries
    henv h7 h8
  rcases handleDynamicPost_cases hash db now endpointId userId key b fo with
    ⟨hn, _⟩ | ⟨e', he', hcase⟩
  · rw [hres] at hn
    exact Option.noConfusion hn
  · rw [hres] at he'
    injection he' with he''
    subst he''
    rcases hcase with ⟨ce, hcred', hh⟩ | ⟨tid', r, hcred', hfwd, hh⟩ |
      ⟨tid', fe, hcred', hfwd, hh⟩
    · rw [hcred] at hcred'
      exact Except.noConfusion hcred'
    · rw [hcred] at hcred'
      injection hcred' with ht
      subst ht
      rw [hfs] at hfwd
      injection hfwd with hr
      rw [hh, ← hr]
      exact ⟨rfl, rfl, rfl, rfl⟩
    · rw [hcred] at hcred'
      injection hcred' with ht
      subst ht
      rw [hfs] at hfwd
      exact Except.noConfusion hfwd

/-- C6 witness: destination `ftp://example.com` on a public endpoint
is answered 400 with the full-URL message and nothing is forwarded. -/
theorem c6_config_error_witness :
    (handleDynamicPost (fun s => s)
        ⟨[⟨"e1", "u1", "ftp://example.com", true, 100, 60000⟩], [], [], []⟩
        0 "e1" "u1" none none (FetchOutcome.ok 200 "ok")).status = 400 ∧
    (handleDynamicPost (fun s => s)
        ⟨[⟨"e1", "u1", "ftp://example.com", true, 100, 60000⟩], [], [], []⟩
        0 "e1" "u1" none none (FetchOutcome.ok 200 "ok")).reply
      = msgReply "Route must be a full URL (starting with http:// or https://)" ∧
    (handleDynamicPost (fun s => s)
        ⟨[⟨"e1", "u1", "ftp://example.com", true, 100, 60000⟩], [], [], []⟩
        0 "e1" "u1" none none (FetchOutcome.ok 200 "ok")).didForward = false := by
  have h := c6_config_error (fun s => s)
    ⟨[⟨"e1", "u1", "ftp://example.com", true, 100, 60000⟩], [], [], []⟩
    0 "e1" "u1" none none (FetchOutcome.ok 200 "ok")
    ⟨"e1", "u1", "ftp://example.com", true, 100, 60000⟩ none []
    (by decide) rfl (by decide) (by decide) (by decide)
  exact ⟨h.1, h.2.1, h.2.2.1⟩

/-- C10: for an endpoint with zero associated credentials, a request
presenting a non-empty credential header — even one matching an
active, unexpired stored credential — is rejected 403 with "API token
is not authorized for this endpoint", because the association lookup
can find no row; no outbound call is made. -/
theorem c10_public_endpoint_reject (hash : String → String) (db : Db) (now : Int)
    (endpointId userId k : String) (b : Body) (fo : FetchOutcome) (e : Endpoint)
    (tok : ApiToken)
    (hres : resolveEndpoint db endpointId userId = some e)
    (hk : k ≠ "")
    (htok : findActiveTokenByHash db (hash k) = some tok)
    (hnexp : tokenExpired tok now = false)
    (hzero : endpointHasAssociatedTokens db endpointId = false) :
    (handleDynamicPost hash db now endpointId userId (some k) b fo).status = 403 ∧
    (handleDynamicPost hash db now endpointId userId (some k) b fo).reply
      = msgReply "API token is not authorized for this endpoint" ∧
    (handleDynamicPost hash db now endpointId userId (some k) b fo).exit
      = Exit.notAssociated ∧
    (handleDynamicPost hash db now endpointId userId (some k) b fo).didForward
      = false := by
  have hassoc := findAssociation_eq_none db endpointId tok.id hzero
  have hcs := credentialStage_not_associated hash db now endpointId k tok hk htok
    hnexp hassoc
  rcases handleDynamicPost_cases hash db now endpointId userId (some k) b fo with
    ⟨hn, _⟩ | ⟨e', he', hcase⟩
  · rw [hres] at hn
    exact Option.noConfusion hn
  · rw [hres] at he'
    injection he' with he''
    subst he''
    rcases hcase with ⟨ce, hcred, hh⟩ | ⟨tid, r, hcred, hfwd, hh⟩ |
      ⟨tid, fe, hcred, hfwd, hh⟩
    · rw [hcs] at hcred
      injection hcred with hce
      rw [hh, ← hce]
      exact ⟨rfl, rfl, rfl, rfl⟩
    · rw [hcs] at hcred
      exact Except.noConfusion hcred
    · rw [hcs] at hcred
      exact Except.noConfusion hcred

/-- C10 witness: a valid, active, never-expiring credential presented
to an endpoint with no associated credentials is rejected with the
not-authorized variant. -/
theorem c10_public_endpoint_reject_witness :
    (handleDynamicPost (fun s => String.append "H" s)
        ⟨[⟨"e1", "u1", "https://dest.example", true, 100, 60000⟩],
          [⟨"t1", "Hsecret", true, none⟩], [], []⟩
        0 "e1" "u1" (some "secret") none (FetchOutcome.ok 200 "ok")).status = 403 ∧
    (handleDynamicPost (fun s => String.append "H" s)
        ⟨[⟨"e1", "u1", "https://dest.example", true, 100, 60000⟩],
          [⟨"t1", "Hsecret", true, none⟩], [], []⟩
        0 "e1" "u1" (some "secret") none (FetchOutcome.ok 200 "ok")).reply
      = msgReply "API token is not authorized for this endpoint" ∧
    (handleDynamicPost (fun s => String.append "H" s)
        ⟨[⟨"e1", "u1", "https://dest.example", true, 100, 60000⟩],
          [⟨"t1", "Hsecret", true, none⟩], [], []⟩
        0 "e1" "u1" (some "secret") none (FetchOutcome.ok 200 "ok")).didForward
      = false := by
  have h := c10_public_endpoint_reject (fun s => String.append "H" s)
    ⟨[⟨"e1", "u1", "https://dest.example", true, 100, 60000⟩],
      [⟨"t1", "Hsecret", true, none⟩], [], []⟩
    0 "e1" "u1" "secret" none (FetchOutcome.ok 200 "ok")
    ⟨"e1", "u1", "https://dest.example", true, 100, 60000⟩
    ⟨"t1", "Hsecret", true, none⟩
    (by decide) (by decide) (by decide) (by decide) (by decide)
  exact ⟨h.1, h.2.1, h.2.2.2⟩

/-- C5: with `maxTokens = 5`, `windowMs = 1000`, five requests with no
elapsed time are all admitted, the sixth is rejected with a 429
reply, and a further request after 1000ms is admitted; a bucket is
created with a full `maxTokens` allotment on first use, an existing
bucket refills by `elapsed / windowMs * maxTokens` capped at
`maxTokens`, and a stored bucket never exceeds `maxTokens` tokens. -/
theorem c5_token_bucket :
    ((rateLimitRun ⟨[⟨"E", "U", "/hook", true, 5, 1000⟩], [], [], []⟩
        "1.2.3.4" "/hook" [0, 0, 0, 0, 0]).1
      = [none, none, none, none, none]) ∧
    ((rateLimitRun ⟨[⟨"E", "U", "/hook", true, 5, 1000⟩], [], [], []⟩
        "1.2.3.4" "/hook" [0, 0, 0, 0, 0, 0]).1.getLast?
      = some (some (429, JTop.obj [("error", JVal.jstr "Rate limit exceeded")]))) ∧
    ((rateLimitRun ⟨[⟨"E", "U", "/hook", true, 5, 1000⟩], [], [], []⟩
        "1.2.3.4" "/hook" [0, 0, 0, 0, 0, 0, 1000]).1.getLast? = some none) ∧
    (∀ (now : Int) (maxT w : ℚ), 1 ≤ maxT →
      rateLimitStep none now maxT w = (true, some ⟨maxT - 1, now⟩)) ∧
    (∀ (b : RateLimitBucket) (now : Int) (maxT w : ℚ),
      rateLimitStep (some b) now maxT w =
        (let refilled := min maxT (b.tokens + ((now - b.lastRefill : Int) : ℚ) / w * maxT)
         if refilled < 1 then (false, some ⟨refilled, now⟩)
         else (true, some ⟨refilled - 1, now⟩))) ∧
    (∀ (b : RateLimitBucket) (now : Int) (maxT w : ℚ) (nb : RateLimitBucket),
      (rateLimitStep (some b) now maxT w).2 = some nb → nb.tokens ≤ maxT) := by
  refine ⟨?_, ?_, ?_, ?_, ?_, ?_⟩
  · norm_num [rateLimitRun, rateLimitMiddleware, findEndpointByRoute, rateLimitStep,
      rateLimitDecision, setBucket, List.lookup, List.filter, List.foldl]
  · norm_num [rateLimitRun, rateLimitMiddleware, findEndpointByRoute, rateLimitStep,
      rateLimitDecision, setBucket, List.lookup, List.filter, List.foldl]
  · norm_num [rateLimitRun, rateLimitMiddleware, findEndpointByRoute, rateLimitStep,
      rateLimitDecision, setBucket, List.lookup, List.filter, List.foldl]
  · intro now maxT w h
    unfold rateLimitStep
    rw [if_neg (not_lt.mpr h)]
  · intro b now maxT w
    rfl
  · intro b now maxT w nb h
    have hstep : rateLimitStep (some b) now maxT w
        = (let refilled := min maxT
             (b.tokens + ((now - b.lastRefill : Int) : ℚ) / w * maxT)
           if refilled < 1 then (false, some ⟨refilled, now⟩)
           else (true, some ⟨refilled - 1, now⟩)) := rfl
    rw [hstep] at h
    by_cases hc : min maxT (b.tokens + ((now - b.lastRefill : Int) : ℚ) / w * maxT) < 1
    · rw [if_pos hc] at h
      injection h with h2
      rw [← h2]
      exact min_le_left _ _
    · rw [if_neg hc] at h
      injection h with h2
      rw [← h2]
      have hm : min maxT (b.tokens + ((now - b.lastRefill : Int) : ℚ) / w * maxT)
          ≤ maxT := min_le_left _ _
      have h1 : (0 : ℚ) ≤ 1 := by norm_num
      calc min maxT (b.tokens + ((now - b.lastRefill : Int) : ℚ) / w * maxT) - 1
          ≤ min maxT (b.tokens + ((now - b.lastRefill : Int) : ℚ) / w * maxT) := by
            linarith
        _ ≤ maxT := hm

/-- C5 witness: a fresh bucket at budget 5 admits and holds 4 tokens;
a stored bucket refilled from 3 tokens after half a window holds at
most the 5-token cap. -/
theorem c5_token_bucket_witness :
    rateLimitStep none 7 5 1000 = (true, some ⟨(5 : ℚ) - 1, 7⟩) ∧
    (⟨4, 500⟩ : RateLimitBucket).tokens ≤ (5 : ℚ) := by
  constructor
  · exact c5_token_bucket.2.2.2.1 7 5 1000 (by norm_num)
  · exact c5_token_bucket.2.2.2.2.2 ⟨3, 0⟩ 500 5 1000 ⟨4, 500⟩
      (by norm_num [rateLimitStep])

/-- On code points below 0x10000 each character is one UTF-16 unit,
so the unit count is the character count. -/
theorem jsUnits_sum_bmp (l : List Char) (h : ∀ c ∈ l, c.toNat < 0x10000) :
    (l.map jsUnits).sum = l.length := by
  induction l with
  | nil => rfl
  | cons c cs ih =>
      have hc : jsUnits c = 1 := by
        unfold jsUnits
        rw [if_pos (h c (List.mem_cons_self c cs))]
      simp [hc, ih (fun x hx => h x (List.mem_cons_of_mem c hx)), Nat.add_comm]

/-- On code points below 0x10000 taking UTF-16 units is taking
characters. -/
theorem jsTakeUnits_bmp (l : List Char) (h : ∀ c ∈ l, c.toNat < 0x10000) (n : Nat) :
    jsTakeUnits n l = l.take n := by
  induction l generalizing n with
  | nil => cases n <;> rfl
  | cons c cs ih =>
      have hc : jsUnits c = 1 := by
        unfold jsUnits
        rw [if_pos (h c (List.mem_cons_self c cs))]
      cases n with
      | zero =>
          unfold jsTakeUnits
          rw [hc]
          rfl
      | succ m =>
          unfold jsTakeUnits
          rw [hc]
          have hm : 1 ≤ m + 1 := Nat.succ_le_succ (Nat.zero_le m)
          rw [if_pos hm]
          simp [ih (fun x hx => h x (List.mem_cons_of_mem c hx))]

set_option maxHeartbeats 1600000 in
/-- C7 (amended): the logging truncation acts on the JavaScript
string length (UTF-16 code units): a body of at most 10240 units is
stored unmodified, a longer body (of BMP characters) is cut to
exactly its first 10240 units; and the body handed to `fetch` is
always the full stringified envelope, never the truncated copy. -/
theorem c7_amended (s : String) :
    (jsLen s ≤ 10240 → truncateLog s = s) ∧
    ((∀ c ∈ s.data, c.toNat < 0x10000) → jsLen s > 10240 →
      truncateLog s = String.mk (s.data.take 10240) ∧
      jsLen (truncateLog s) = 10240) ∧
    (∀ (hash : String → String) (db : Db) (now : Int) (endpointId userId : String)
      (key : Option String) (b : Body) (fo : FetchOutcome) (fb : String),
      (handleDynamicPost hash db now endpointId userId key b fo).forwardedBody
        = some fb →
      ∃ entries, envelopeEntries b = some entries ∧
        fb = stringifyObj (forwardingBody userId endpointId
          (firstSchemaId db endpointId) entries)) := by
  refine ⟨?_, ?_, ?_⟩
  · intro h
    unfold truncateLog
    rw [if_neg (not_lt.mpr h)]
  · intro hbmp hgt
    have hlen : jsLen s = s.data.length := jsUnits_sum_bmp s.data hbmp
    have htr : truncateLog s = String.mk (s.data.take 10240) := by
      unfold truncateLog jsSubstring
      rw [if_pos hgt, jsTakeUnits_bmp s.data hbmp 10240]
    refine ⟨htr, ?_⟩
    rw [htr]
    have hbmp2 : ∀ c ∈ s.data.take 10240, c.toNat < 0x10000 :=
      fun c hc => hbmp c (List.mem_of_mem_take hc)
    have : jsLen (String.mk (s.data.take 10240)) = (s.data.take 10240).length :=
      jsUnits_sum_bmp _ hbmp2
    rw [this, List.length_take]
    rw [hlen] at hgt
    exact Nat.min_eq_left (Nat.le_of_lt hgt)
  · intro hash db now endpointId userId key b fo fb h
    rcases handleDynamicPost_cases hash db now endpointId userId key b fo with
      ⟨_, hh⟩ | ⟨e, he, hcase⟩
    · rw [hh] at h
      exact Option.noConfusion h
    · rcases hcase with ⟨ce, hcred, hh⟩ | ⟨tid, r, hcred, hfwd, hh⟩ |
        ⟨tid, fe, hcred, hfwd, hh⟩
      · rw [hh] at h
        exact Option.noConfusion h
      · rcases forwardStageCore_cases db endpointId userId e tid b fo with
          ⟨_, hc⟩ | ⟨entries, henv, ⟨h7, h8, heq⟩ | ⟨m, hfo, heq⟩ | ⟨st, text, hfo, heq⟩⟩
        · rw [hfwd] at hc
          exact Except.noConfusion hc
        · rw [hfwd] at heq
          injection heq with hr
          rw [hh, hr] at h
          exact Option.noConfusion h
        · rw [hfwd] at heq
          exact Except.noConfusion heq
        · rw [hfwd] at heq
          injection heq with hr
          rw [hh, hr] at h
          injection h with hfb
          exact ⟨entries, henv, hfb.symm⟩
      · rcases forwardStageCore_cases db endpointId userId e tid b fo with
          ⟨henv, hc⟩ | ⟨entries, henv, ⟨h7, h8, heq⟩ | ⟨m, hfo, heq⟩ | ⟨st, text, hfo, heq⟩⟩
        · rw [hfwd] at hc
          injection hc with hfe
          rw [hh] at h
          rw [(catchResult_shape hash db endpointId userId key b fe.msg fe.didForward
            fe.forwardedBody).2.2.2.2.2.1, hfe] at h
          exact Option.noConfusion h
        · rw [hfwd] at heq
          exact Except.noConfusion heq
        · rw [hfwd] at heq
          injection heq with hfe
          rw [hh] at h
          rw [(catchResult_shape hash db endpointId userId key b fe.msg fe.didForward
            fe.forwardedBody).2.2.2.2.2.1, hfe] at h
          injection h with hfb
          exact ⟨entries, henv, hfb.symm⟩
        · rw [hfwd] at heq
          exact Except.noConfusion heq

/-- C7 counterexample: a body of 5121 copies of `é` occupies 10242
UTF-8 bytes — more than the 10240-byte ceiling the claim states — yet
its JavaScript length is 5121, so the stored copy is kept unmodified
and is not 10240 bytes. -/
theorem c7_counterexample :
    strUtf8Bytes (String.mk (List.replicate 5121 'é')) = 10242 ∧
    truncateLog (String.mk (List.replicate 5121 'é'))
      = String.mk (List.replicate 5121 'é') ∧
    strUtf8Bytes (truncateLog (String.mk (List.replicate 5121 'é'))) ≠ 10240 := by
  have hu : jsUnits 'é' = 1 := by decide
  have hb : charUtf8Bytes 'é' = 2 := by decide
  have hlen : jsLen (String.mk (List.replicate 5121 'é')) = 5121 := by
    show (List.map jsUnits (List.replicate 5121 'é')).sum = 5121
    rw [List.map_replicate, hu, List.sum_replicate, smul_eq_mul, mul_one]
  have hbytes : strUtf8Bytes (String.mk (List.replicate 5121 'é')) = 10242 := by
    show (List.map charUtf8Bytes (List.replicate 5121 'é')).sum = 10242
    rw [List.map_replicate, hb, List.sum_replicate, smul_eq_mul]
  have htr : truncateLog (String.mk (List.replicate 5121 'é'))
      = String.mk (List.replicate 5121 'é') := by
    unfold truncateLog
    rw [hlen]
    rfl
  refine ⟨hbytes, htr, ?_⟩
  rw [htr, hbytes]
  norm_num

/-- C7 witness: a short body is stored unmodified; an ASCII body of
10241 characters is stored at exactly 10240 units; and a concrete
forwarded body is the full stringified envelope. -/
theorem c7_amended_witness :
    truncateLog "short" = "short" ∧
    jsLen (truncateLog (String.mk (List.replicate 10241 'a'))) = 10240 ∧
    (∃ entries,
      envelopeEntries (some (JTop.obj [("a", JVal.jstr "b")])) = some entries ∧
      "\x7b\"user_id\":\"u1\",\"endpoint_id\":\"e1\",\"a\":\"b\"\x7d"
        = stringifyObj (forwardingBody "u1" "e1"
            (firstSchemaId ⟨[⟨"e1", "u1", "https://d", true, 100, 60000⟩], [], [], []⟩
              "e1")
            entries)) := by
  refine ⟨(c7_amended "short").1 (by decide), ?_, ?_⟩
  · have hbmp : ∀ c ∈ (String.mk (List.replicate 10241 'a')).data, c.toNat < 0x10000 := by
      intro c hc
      have := List.eq_of_mem_replicate hc
      rw [this]
      decide
    have hgt : jsLen (String.mk (List.replicate 10241 'a')) > 10240 := by
      have : jsLen (String.mk (List.replicate 10241 'a')) = 10241 := by
        show (List.map jsUnits (List.replicate 10241 'a')).sum = 10241
        rw [List.map_replicate, show jsUnits 'a' = 1 from by decide,
          List.sum_replicate, smul_eq_mul, mul_one]
      rw [this]
      norm_num
    exact ((c7_amended (String.mk (List.replicate 10241 'a'))).2.1 hbmp hgt).2
  · exact (c7_amended "x").2.2 (fun s => s)
      ⟨[⟨"e1", "u1", "https://d", true, 100, 60000⟩], [], [], []⟩ 0 "e1" "u1" none
      (some (JTop.obj [("a", JVal.jstr "b")])) (FetchOutcome.ok 200 "ok")
      "\x7b\"user_id\":\"u1\",\"endpoint_id\":\"e1\",\"a\":\"b\"\x7d" (by decide)

set_option maxHeartbeats 1600000 in
/-- C9 (amended): every error reply the route handler generates
itself (404 not found, all 403 credential variants, the 400
configuration error and the 500 exception reply) is a JSON object
with a single `message` field; the rate limiter's 429 rejection is
instead a single-field object keyed `error`. -/
theorem c9_amended (hash : String → String) (db : Db) (now : Int)
    (endpointId userId : String) (key : Option String) (b : Body) (fo : FetchOutcome)
    (ip route : String) (buckets : BucketMap) :
    ((handleDynamicPost hash db now endpointId userId key b fo).gatewayReply = true →
      ∃ m, (handleDynamicPost hash db now endpointId userId key b fo).reply
        = msgReply m) ∧
    (∀ (st : Nat) (body : JTop) (buckets2 : BucketMap),
      rateLimitMiddleware db buckets ip route now = (some (st, body), buckets2) →
      st = 429 ∧ body = JTop.obj [("error", JVal.jstr "Rate limit exceeded")]) := by
  constructor
  · intro hg
    rcases handleDynamicPost_cases hash db now endpointId userId key b fo with
      ⟨_, hh⟩ | ⟨e, he, hcase⟩
    · rw [hh]
      exact ⟨"Endpoint not found or inactive", rfl⟩
    · rcases hcase with ⟨ce, hcred, hh⟩ | ⟨tid, r, hcred, hfwd, hh⟩ |
        ⟨tid, fe, hcred, hfwd, hh⟩
      · rw [hh]
        exact ⟨ce.msg, rfl⟩
      · rcases forwardStageCore_cases db endpointId userId e tid b fo with
          ⟨_, hc⟩ | ⟨entries, henv, ⟨h7, h8, heq⟩ | ⟨m, hfo, heq⟩ | ⟨st, text, hfo, heq⟩⟩
        · rw [hfwd] at hc
          exact Except.noConfusion hc
        · rw [hfwd] at heq
          injection heq with hr
          rw [hh, hr]
          exact ⟨"Route must be a full URL (starting with http:// or https://)", rfl⟩
        · rw [hfwd] at heq
          exact Except.noConfusion heq
        · rw [hfwd] at heq
          injection heq with hr
          rw [hh, hr] at hg
          exact Bool.noConfusion hg
      · rw [hh]
        exact ⟨if fe.msg = "" then "Internal server error" else fe.msg,
          (catchResult_shape hash db endpointId userId key b fe.msg fe.didForward
            fe.forwardedBody).2.1⟩
  · intro st body buckets2 h
    unfold rateLimitMiddleware at h
    rcases Option.eq_none_or_eq_some (findEndpointByRoute db route) with hfind | ⟨ep, hfind⟩
    · rw [hfind] at h
      injection h with h1 h2
      exact Option.noConfusion h1
    · rw [hfind] at h
      injection h with h1 h2
      rcases rateLimitDecision_shape
          ((rateLimitStep (List.lookup (ip ++ "-" ++ ep.id) buckets) now
            ((ep.rateLimit : ℚ)) ((ep.rateLimitWindowMs : ℚ))).1) with hd | hd
      · rw [hd] at h1
        exact Option.noConfusion h1
      · rw [hd] at h1
        injection h1 with h3
        injection h3 with h4 h5
        exact ⟨h4.symm, h5.symm⟩

/-- C9 counterexample: the rate limiter's 429 rejection reply carries
a single `error` field, not a `message` field. -/
theorem c9_counterexample :
    (rateLimitMiddleware ⟨[⟨"E", "U", "/hook", true, 0, 1000⟩], [], [], []⟩ []
        "9.9.9.9" "/hook" 0).1
      = some (429, JTop.obj [("error", JVal.jstr "Rate limit exceeded")]) ∧
    (∀ m, JTop.obj [("error", JVal.jstr "Rate limit exceeded")] ≠ msgReply m) := by
  constructor
  · norm_num [rateLimitMiddleware, findEndpointByRoute, rateLimitStep,
      rateLimitDecision, List.filter, List.lookup]
  · intro m h
    simp [msgReply] at h

/-- C9 witness: the 404 reply of the handler is a single-message
object, and a concrete exhausted bucket yields the 429/`error`
rejection through the amended statement. -/
theorem c9_amended_witness :
    (∃ m, (handleDynamicPost (fun s => s) ⟨[], [], [], []⟩ 0 "e1" "u1" none none
        (FetchOutcome.ok 200 "ok")).reply = msgReply m) ∧
    (429 = 429 ∧ JTop.obj [("error", JVal.jstr "Rate limit exceeded")]
      = JTop.obj [("error", JVal.jstr "Rate limit exceeded")]) := by
  constructor
  · exact (c9_amended (fun s => s) ⟨[], [], [], []⟩ 0 "e1" "u1" none none
      (FetchOutcome.ok 200 "ok") "ip" "/hook" []).1 (by decide)
  · exact (c9_amended (fun s => s) ⟨[⟨"E", "U", "/hook", true, 0, 1000⟩], [], [], []⟩ 0
      "e1" "u1" none none (FetchOutcome.ok 200 "ok") "9.9.9.9" "/hook" []).2 429
      (JTop.obj [("error", JVal.jstr "Rate limit exceeded")]) []
      (by norm_num [rateLimitMiddleware, findEndpointByRoute, rateLimitStep,
        rateLimitDecision, List.filter, List.lookup, setBucket])
